import Mathlib

/-!
# A verification development for the GTK4 widget gallery (`gallery.go`)

The program is a single Go file that builds a window full of demonstration
widgets.  The toolkit (gotk4, gtknew, grun) is external to the repository, so
its objects are embedded as *construction records*: an object is the name of
the constructor that made it, the arguments of that constructor, and the
ordered log of the method calls made on it.  A method argument records the
object as it was when the call was made.  The few toolkit methods whose
meaning the properties below depend on (`FlowBox.Insert`,
`FlowBox.SetMaxChildrenPerLine`, `Switch.SetActive`, `Label.SetLabel`,
`ListStore.SetValue`, ...) get an interpretation of that log.

Go code with effects (the global `files` map, console output, the idle queue,
HTTP requests) is embedded in a state-and-failure monad `M` over a `World`;
a Go run-time panic is the failure of the monad.  The click handlers that
can panic after printing are embedded in `Callback`, where the world at the
panic stays observable.
-/

namespace Gallery

/-! ## Values of the toolkit -/

/-- A Go byte slice; `none` is the nil slice. -/
abbrev Bytes := Option (List Nat)

/-- A decoded image (`*gdkpixbuf.Pixbuf`), identified by a number. -/
structure Pixbuf where
  ident : Nat
deriving DecidableEq, Repr

/-- A Go function value passed to the toolkit as a callback. -/
inductive Handler where
  /-- The closure returned by `callPrint(args...)`: it prints `args`. -/
  | println (args : List String)
  /-- A function literal, named the way the Go run time names it (`f.func1`). -/
  | closure (name : String)
  /-- A method value such as `w.Destroy` or `box.switchToggled`. -/
  | method (name : String)
deriving DecidableEq, Repr

/-- A value stored in a `glib.Value` by `externglib.NewValue`, tagged by the Go
type of the wrapped value. -/
inductive GValue where
  | string (s : String)
  | int (i : Int)
  | float64 (num : Int) (den : Nat)
  | pixbuf (p : Pixbuf)
deriving DecidableEq, Repr

/-- The column types of a `gtk.ListStore`. -/
inductive GType where
  | TypeString
  | TypeInt
  | GdkPixbuf
deriving DecidableEq, Repr

/-- A `gtk.ListStore`: its declared column types and its rows; a cell is
`none` until a value is stored in it. -/
structure ListStore where
  types : List GType
  rows : List (List (Option GValue))
deriving DecidableEq, Repr

mutual
/-- An argument of a toolkit constructor or method. -/
inductive Arg where
  | str (s : String)
  | strs (l : List String)
  | int (i : Int)
  | bool (b : Bool)
  /-- A floating point literal `num / den`. -/
  | float (num : Int) (den : Nat)
  /-- A toolkit constant such as `gtk.OrientationHorizontal`. -/
  | const (name : String)
  | func (h : Handler)
  | pixbuf (p : Option Pixbuf)
  | model (m : ListStore)
  | obj (o : Object)
/-- A toolkit object handle: `nil`, or the record of how the object was made
(constructor, constructor arguments, method calls in order). -/
inductive Object where
  | nil
  | mk (ctor : String) (args : List Arg) (calls : List (String × List Arg))
end

/-- The Go interface `gtk.Widgetter`; its zero value is `Object.nil`. -/
abbrev Widgetter := Object

namespace Object

/-- Whether a handle is the nil handle. -/
def isNil : Object → Bool
  | .nil => true
  | .mk _ _ _ => false

/-- The method calls made on an object, oldest first. -/
def calls : Object → List (String × List Arg)
  | .nil => []
  | .mk _ _ cs => cs

/-- Calling method `m` with arguments `a` on an object appends to its log.  The
nil handle has no log; the program never calls a method on it. -/
def call (o : Object) (m : String) (a : List Arg) : Object :=
  match o with
  | .nil => .nil
  | .mk c args cs => .mk c args (cs ++ [(m, a)])

end Object

/-- A toolkit constructor call `ctor(args...)`; constructors return a live
object. -/
def new (ctor : String) (args : List Arg) : Object := .mk ctor args []

/-! ## The world the program runs in -/

/-- The outcome of `http.Get(url)` followed by `io.ReadAll(resp.Body)`. -/
inductive HttpResult where
  /-- `http.Get` returned an error. -/
  | getError (e : String)
  /-- A response with a status code; reading the body gave `body` and the
  error `readErr` (`none` for a nil error). -/
  | response (status : Nat) (body : List Nat) (readErr : Option String)
deriving DecidableEq, Repr

/-- A closure queued on the GLib main loop (`externglib.IdleAdd`,
`gtknew.Idle`). -/
inductive IdleTask where
  /-- The closure of `newIconview`: decode `content` and store the icon of
  row `iter`. -/
  | iconviewIcon (iter : Nat) (content : Bytes)
  /-- The closure of `CustomWidget.Loop`: `w.labelTime.SetLabel(text)`. -/
  | labelTimeSetLabel (text : String)
deriving DecidableEq, Repr

/-- Observable events, in program order. -/
inductive Event where
  /-- Text written to standard output. -/
  | print (s : String)
  /-- A call of `http.Get`. -/
  | httpGet (url : String)
  /-- A call of `resp.Body.Close()`. -/
  | bodyClose (url : String)
  /-- The assignment `files[key] = ...`. -/
  | filesWrite (key : String)
  /-- The lookup `files[key]`. -/
  | filesRead (key : String)
  /-- A closure handed to the main loop. -/
  | idleAdd (task : IdleTask)
  /-- A `go` statement. -/
  | go (fn : String)
  /-- A method call on the application or on one of its windows (`gapp.App`,
  `gapp.Win`, a window built by a click handler). -/
  | appCall (target : String) (method : String) (args : List String)
deriving DecidableEq, Repr

/-- What is outside the program: the network, the image decoder, the window
manager state, the order in which Go visits a map, the clock format. -/
structure Env where
  /-- The network: the outcome of fetching a URL. -/
  httpGet : String → HttpResult
  /-- The image decoder: `PixbufLoader.Write(b)` then `.Pixbuf()`. -/
  loaderPixbuf : Bytes → Option Pixbuf
  /-- The image decoder: the error of `PixbufLoader.Close()`, if any. -/
  loaderClose : Bytes → Option String
  /-- The result of `gapp.Win.IsMaximized()`. -/
  winIsMaximized : Bool
  /-- The order in which a `range` over a map visits its entries. -/
  mapRange : List (Int × GValue) → List (Int × GValue)
  /-- The text of `t.Format(time.StampMilli)` for the tick number `t`. -/
  stampMilli : Nat → String

/-- The mutable state of the process. -/
structure World where
  env : Env
  /-- The global `var files = map[string][]byte`, as an association list. -/
  files : List (String × Bytes)
  /-- The events so far, oldest first. -/
  trace : List Event

/-- Go code with effects; failure is a run-time panic. -/
abbrev M := StateT World (Except String)

/-- Record an event. -/
def emit (e : Event) : M Unit :=
  modify fun w => { w with trace := w.trace ++ [e] }

/-- The external environment. -/
def getEnv : M Env := do
  return (← get).env

/-- Assignment to a Go map: replace the entry of the key, or add one. -/
def mapSet (m : List (String × Bytes)) (k : String) (v : Bytes) : List (String × Bytes) :=
  match m with
  | [] => [(k, v)]
  | (k', v') :: rest => if k' = k then (k, v) :: rest else (k', v') :: mapSet rest k v

/-- Lookup in a Go map: a missing key gives the zero value, the nil slice. -/
def mapGet (m : List (String × Bytes)) (k : String) : Bytes :=
  match m with
  | [] => none
  | (k', v') :: rest => if k' = k then v' else mapGet rest k

/-- The statement `files[k] = v`. -/
def filesSet (k : String) (v : Bytes) : M Unit := do
  emit (.filesWrite k)
  modify fun w => { w with files := mapSet w.files k v }

/-- The expression `files[k]`. -/
def filesGet (k : String) : M Bytes := do
  emit (.filesRead k)
  return mapGet (← get).files k

/-! ## The toolkit helpers the gallery uses -/

namespace gtk

/-- The constructor `gtk.NewLabel(text)`. -/
def NewLabel (text : String) : Object := new "gtk.NewLabel" [.str text]

/-- The constructor `gtk.NewFlowBox()`. -/
def NewFlowBox : Object := new "gtk.NewFlowBox" []

end gtk

namespace gtknew

/-- The helper `gtknew.Frame(title, children...)`. -/
def Frame (title : String) (children : List Widgetter) : Object :=
  new "gtknew.Frame" (.str title :: children.map .obj)

/-- The helper `gtknew.VBox(spacing, children...)`. -/
def VBox (spacing : Int) (children : List Widgetter) : Object :=
  new "gtknew.VBox" (.int spacing :: children.map .obj)

/-- The helper `gtknew.HBox(spacing, children...)`. -/
def HBox (spacing : Int) (children : List Widgetter) : Object :=
  new "gtknew.HBox" (.int spacing :: children.map .obj)

/-- The helper `gtknew.ScrolledWindow(child)`. -/
def ScrolledWindow (child : Widgetter) : Object :=
  new "gtknew.ScrolledWindow" [.obj child]

/-- The helper `gtknew.Expander(title, child)`. -/
def Expander (title : String) (child : Widgetter) : Object :=
  new "gtknew.Expander" [.str title, .obj child]

end gtknew

/-- The children of a container made by a `gtknew` helper: the object
arguments of its constructor, in order. -/
def Object.ctorChildren : Object → List Object
  | .nil => []
  | .mk _ args _ => args.filterMap fun a => match a with
      | .obj o => some o
      | _ => none

/-- The title given to a `gtknew.Frame` or `gtknew.Expander`. -/
def Object.ctorTitle : Object → Option String
  | .mk _ (.str t :: _) _ => some t
  | _ => none

/-- The spacing given to a `gtknew.VBox` or `gtknew.HBox`. -/
def Object.ctorSpacing : Object → Option Int
  | .mk _ (.int n :: _) _ => some n
  | _ => none

/-- The meaning of `gtk_flow_box_insert(box, child, position)` on the list of
children: "if position is -1, or larger than the total number of children in
the box, then the widget will be appended to the end". -/
def flowInsert (children : List Object) (child : Object) (position : Int) : List Object :=
  if 0 ≤ position ∧ position.toNat < children.length then
    children.take position.toNat ++ child :: children.drop position.toNat
  else
    children ++ [child]

/-- The children of a `gtk.FlowBox`, in display order, read off its call log. -/
def FlowBox.children (box : Object) : List Object :=
  box.calls.foldl
    (fun acc c =>
      match c with
      | ("Insert", [.obj child, .int position]) => flowInsert acc child position
      | _ => acc)
    []

/-- The value set by `SetMaxChildrenPerLine`, when it was called. -/
def FlowBox.maxChildrenPerLine (box : Object) : Option Int :=
  box.calls.foldl
    (fun acc c =>
      match c with
      | ("SetMaxChildrenPerLine", [.int n]) => some n
      | _ => acc)
    none

/-! ## `gallery.go`: constants and the common helpers -/

/-- The constant `boxMargin`. -/
def boxMargin : Int := 2

/-- The constant `imageSource`. -/
def imageSource : String :=
  "https://raw.githubusercontent.com/golang-samples/gopher-vector/master/"

/-- The loop `for i, item := range items { box.Insert(item, int(i)) }`. -/
def newContainer.loop : List Widgetter → Nat → Object → Object
  | [], _, box => box
  | item :: rest, i, box =>
      newContainer.loop rest (i + 1) (box.call "Insert" [.obj item, .int (Int.ofNat i)])

/-- The function `newContainer(isWide, items...)`. -/
def newContainer (isWide : Bool) (items : List Widgetter) : Widgetter :=
  let box := gtk.NewFlowBox
  let box := box.call "SetSelectionMode" [.const "gtk.SelectionNone"]
  let box := newContainer.loop items 0 box
  let box := if isWide then box.call "SetMaxChildrenPerLine" [.int 2] else box
  box

/-- One entry of a `Group`: a name and a widget maker. -/
structure GroupItem where
  Name : String
  Make : M Widgetter

/-- The type `Group`: a group of widget makers. -/
abbrev Group := List GroupItem

/-- The loop of `Group.Widgets`:
`for _, item := range l { widgets = append(widgets, gtknew.Frame(item.Name, item.Make())) }`. -/
def Group.Widgets.loop : List GroupItem → List Widgetter → M (List Widgetter)
  | [], widgets => pure widgets
  | item :: rest, widgets => do
      let made ← item.Make
      Group.Widgets.loop rest (widgets ++ [gtknew.Frame item.Name [made]])

/-- The method `Group.Widgets(title)`: a box with all widgets of the group. -/
def Group.Widgets (l : Group) (title : String) : M Widgetter := do
  let widgets ← Group.Widgets.loop l []
  let isWide := (title == "Containers")
  return gtknew.Frame title [newContainer isWide widgets]


/-! ## `gtk.ListStore` -/

namespace ListStore

/-- The constructor `gtk.NewListStore(types)`: a store with no rows. -/
def New (types : List GType) : ListStore := { types := types, rows := [] }

/-- Storing `v` in column `col` of a row; a column outside the row is
ignored, as the toolkit does. -/
def setCell (row : List (Option GValue)) (col : Int) (v : GValue) : List (Option GValue) :=
  if 0 ≤ col ∧ col.toNat < row.length then row.set col.toNat (some v) else row

/-- The method `model.Append()`: a new empty row at the end; the iterator
returned is the index of that row. -/
def Append (m : ListStore) : ListStore × Nat :=
  ({ m with rows := m.rows ++ [List.replicate m.types.length none] }, m.rows.length)

/-- The method `model.SetValue(&iter, column, value)`. -/
def SetValue (m : ListStore) (iter : Nat) (column : Int) (value : GValue) : ListStore :=
  { m with rows := m.rows.modify (fun row => setCell row column value) iter }

/-- The method `model.InsertWithValues(position, columns, values)`: a new row
with the given columns set, appended when `position` is negative or past the
end. -/
def InsertWithValues (m : ListStore) (position : Int) (columns : List Int)
    (values : List GValue) : ListStore :=
  let row := (columns.zip values).foldl (fun r kv => setCell r kv.1 kv.2)
    (List.replicate m.types.length none)
  if 0 ≤ position ∧ position.toNat < m.rows.length then
    { m with rows := m.rows.take position.toNat ++ row :: m.rows.drop position.toNat }
  else
    { m with rows := m.rows ++ [row] }

/-- The method `model.Value(&iter, column)`: the cell, `none` when nothing was
stored there. -/
def Value (m : ListStore) (iter : Nat) (column : Int) : Option GValue :=
  if 0 ≤ column then (m.rows.getD iter []).getD column.toNat none else none

end ListStore

/-! ## `gallery.go`: common helpers -/

/-- The call `fmt.Printf(format, ...)`, given the formatted text. -/
def Printf (text : String) : M Unit := emit (.print text)

/-- The call `fmt.Println(args...)`, given the operands already formatted:
they are separated by spaces and a newline is added. -/
def Println (args : List String) : M Unit := emit (.print (" ".intercalate args ++ "\n"))

/-- The formatting of a Go `bool` by `fmt`. -/
def fmtBool (b : Bool) : String := if b then "true" else "false"

/-- The expression `&o.Widget`: the same toolkit object, seen as its base
type. -/
def Object.Widget (o : Object) : Object := o

/-- The function `newHBoxExpand(list...)`. -/
def newHBoxExpand (list : List Widgetter) : Widgetter :=
  let box := gtknew.HBox boxMargin list
  let box := box.call "SetHExpand" [.bool true]
  box

/-- The function `buttonAction(label, icon, call)`. -/
def buttonAction (label icon : String) (call : Handler) : Widgetter :=
  let w := new "gtk.NewButton" []
  let w := w.call "Connect" [.str "clicked", .func call]
  let img := new "gtk.NewImageFromIconName" [.str icon]
  let img := img.call "SetIconSize" [.const "gtk.IconSizeLarge"]
  let w := w.call "SetChild" [.obj (gtknew.VBox boxMargin [img, gtk.NewLabel label])]
  w

/-- The loop of `insertWithValues`, over the map entries in the order the
`range` visits them:
`keys = append(keys, k); values = append(values, *externglib.NewValue(v))`. -/
def insertWithValues.loop : List (Int × GValue) → List Int → List GValue → List Int × List GValue
  | [], keys, values => (keys, values)
  | (k, v) :: rest, keys, values => insertWithValues.loop rest (keys ++ [k]) (values ++ [v])

/-- The function `insertWithValues(model, data)`; the map `data` is given by
its entries and visited in the order `Env.mapRange` decides. -/
def insertWithValues (model : ListStore) (data : List (Int × GValue)) : M ListStore := do
  let env ← getEnv
  let (keys, values) := insertWithValues.loop (env.mapRange data) [] []
  return model.InsertWithValues (-1) keys values

/-- The function `downloadFile(url)`. -/
def downloadFile (url : String) : M Bytes := do
  let env ← getEnv
  emit (.httpGet url)
  match env.httpGet url with
  | .getError e =>
      Printf ("can\x27t find icon url (" ++ url ++ "): " ++ e)
      return none
  | .response _ byts readErr =>
      emit (.bodyClose url)
      match readErr with
      | some e =>
          Printf ("can\x27t download icon (" ++ url ++ "): " ++ e)
          return none
      | none => return some byts

/-- The function `pixbufLoader(byts)`.  The loader is the toolkit's: what
`load.Pixbuf()` gives after `load.Write(byts)`, and the error of
`load.Close()`, come from the environment. -/
def pixbufLoader (byts : Bytes) : M (Option Pixbuf) := do
  let env ← getEnv
  let pix := env.loaderPixbuf byts
  match env.loaderClose byts with
  | some e => Printf ("can\x27t close pixbuf loader: " ++ e)
  | none => pure ()
  return pix

/-- The function `placeholder()`. -/
def placeholder : M Widgetter := return gtk.NewLabel "TODO"

/-- The function `callPrint(args...)`: a closure that prints `args`. -/
def callPrint (args : List String) : Handler := .println args

/-! ## `gallery.go`: the custom widget -/

/-- The struct `CustomWidget`: an extended `gtk.Box` with a switch, an icon
and two labels. -/
structure CustomWidget where
  Box : Object
  sw : Object
  img : Object
  labelState : Object
  labelTime : Object

/-- The state of a `gtk.Switch` (`sw.Active()`): the argument of the last
`SetActive`, and off for a new switch. -/
def Switch.Active (sw : Object) : Bool :=
  sw.calls.foldl
    (fun acc c =>
      match c with
      | ("SetActive", [.bool b]) => b
      | _ => acc)
    false

/-- Whether handler `h` is connected to `signal` on the object. -/
def Object.connected (o : Object) (signal : String) (h : Handler) : Bool :=
  o.calls.any fun c =>
    match c with
    | ("Connect", [.str s, .func g]) => s == signal && g == h
    | _ => false

/-- The text a `gtk.Label` shows: the argument of the last `SetLabel`, or
else the text it was made with. -/
def Label.text : Object → String
  | .nil => ""
  | .mk _ args cs =>
    cs.foldl
      (fun acc c =>
        match c with
        | ("SetLabel", [.str s]) => s
        | _ => acc)
      (match args with
       | [.str s] => s
       | _ => "")

/-- The icon a `gtk.Image` shows: the argument of the last
`SetFromIconName`, if any. -/
def Image.iconName (img : Object) : Option String :=
  img.calls.foldl
    (fun acc c =>
      match c with
      | ("SetFromIconName", [.str s]) => some s
      | _ => acc)
    none

/-- Lookup in a Go map literal keyed by `bool`; a missing key gives the empty
string. -/
def boolMapGet (m : List (Bool × String)) (k : Bool) : String :=
  match m with
  | [] => ""
  | (k', v) :: rest => if k' = k then v else boolMapGet rest k

namespace CustomWidget

/-- The method `Active()`: the switch value. -/
def Active (w : CustomWidget) : Bool := Switch.Active w.sw

/-- The callback `switchToggled()`. -/
def switchToggled (w : CustomWidget) : M CustomWidget := do
  let text := [(false, "Active"), (true, "Inactive")]
  let icon := [(false, "go-up"), (true, "go-down")]
  let newValue := !w.Active
  let w := { w with img := w.img.call "SetFromIconName" [.str (boolMapGet icon newValue)] }
  let w := { w with labelState := w.labelState.call "SetLabel" [.str (boolMapGet text newValue)] }
  Println ["custom widget switched to", fmtBool newValue]
  return w

/-- What the toolkit does when the value of the switch is set, by
`sw.SetActive(active)` or by the user: nothing when the value is the one it
has; otherwise the value changes and the signal `state-set` is emitted,
which runs `switchToggled` when it is connected. -/
def setSwitch (w : CustomWidget) (active : Bool) : M CustomWidget := do
  if Switch.Active w.sw = active then
    return w
  else
    let w := { w with sw := w.sw.call "SetActive" [.bool active] }
    if w.sw.connected "state-set" (.method "box.switchToggled") then
      w.switchToggled
    else
      return w

/-- The method `SetActive(active)`: sets the switch value. -/
def SetActive (w : CustomWidget) (active : Bool) : M CustomWidget := w.setSwitch active

/-- One toggle of the switch by the user. -/
def toggle (w : CustomWidget) : M CustomWidget := w.setSwitch (!w.Active)

/-- The closure `func() { w.labelTime.SetLabel(text) }` of `Loop`. -/
def Loop.func1 (w : CustomWidget) (text : String) : CustomWidget :=
  { w with labelTime := w.labelTime.call "SetLabel" [.str text] }

/-- The method `Loop()`, for the ticks the timer channel delivers (the loop
itself never ends): each tick formats a text and hands a closure to
`gtknew.Idle`.  The widget the goroutine holds is returned as it is at the
end. -/
def Loop (w : CustomWidget) : List Nat → M CustomWidget
  | [] => pure w
  | t :: ticks => do
      let env ← getEnv
      let text := "Last updated at " ++ env.stampMilli t ++ "."
      emit (.idleAdd (.labelTimeSetLabel text))
      Loop w ticks

/-- A `*CustomWidget` as a `gtk.Widgetter`. -/
def toWidgetter (w : CustomWidget) : Widgetter :=
  new "CustomWidget" [.obj w.Box, .obj w.sw, .obj w.img, .obj w.labelState, .obj w.labelTime]

end CustomWidget

/-- The function `NewCustomWidget()`. -/
def NewCustomWidget : M CustomWidget := do
  let box : CustomWidget := {
    Box := gtknew.HBox 10 []
    sw := new "gtk.NewSwitch" []
    img := new "gtk.NewImage" []
    labelState := gtk.NewLabel "Custom Widget"
    labelTime := gtk.NewLabel "" }
  let box := { box with labelTime := box.labelTime.call "SetHAlign" [.const "gtk.AlignEnd"] }
  let box := { box with labelTime := box.labelTime.call "SetHExpand" [.bool true] }
  let box := { box with
    sw := box.sw.call "Connect" [.str "activate", .func (.closure "NewCustomWidget.func1")] }
  let box := { box with
    sw := box.sw.call "Connect" [.str "state-set", .func (.method "box.switchToggled")] }
  let box ← box.SetActive true
  let box := { box with Box := box.Box.call "Append" [.obj (gtk.NewLabel "Custom Widget:")] }
  let box := { box with Box := box.Box.call "Append" [.obj box.sw] }
  let box := { box with Box := box.Box.call "Append" [.obj box.img] }
  let box := { box with Box := box.Box.call "Append" [.obj box.labelState] }
  let box := { box with Box := box.Box.call "Append" [.obj box.labelTime] }
  return box

/-- The function `NewCustomWidgetStarted()`. -/
def NewCustomWidgetStarted : M CustomWidget := do
  let w ← NewCustomWidget
  emit (.go "w.Loop")
  return w

/-! ## `gallery.go`: display widgets -/

/-- The function `newLabel()`. -/
def newLabel : M Widgetter :=
  return gtknew.VBox boxMargin [gtk.NewLabel "Label"]

/-- The function `newSpinner()`. -/
def newSpinner : M Widgetter := do
  let w := new "gtk.NewSpinner" []
  let w := w.call "Start" []
  return gtknew.VBox boxMargin [w]

/-- The function `newStatusBar()`. -/
def newStatusBar : M Widgetter := do
  let w := new "gtk.NewStatusbar" []
  let w := w.call "Push" [.int 0, .str "Statusbar"]
  return w

/-- The function `newLevelBar()`. -/
def newLevelBar : M Widgetter := do
  let w := new "gtk.NewLevelBar" []
  let w := w.call "SetValue" [.float 1 2]
  return w

/-- The function `newProgressBar()`. -/
def newProgressBar : M Widgetter := do
  let w := new "gtk.NewProgressBar" []
  let w := w.call "SetFraction" [.float 1 2]
  return w

/-- The function `newInfoBar()`. -/
def newInfoBar : M Widgetter := do
  let w := new "gtk.NewInfoBar" []
  let w := w.call "AddChild" [.obj (gtk.NewLabel "InfoBar")]
  let w := w.call "SetShowCloseButton" [.bool true]
  return gtknew.VBox boxMargin [w]

/-- The function `newScrollbar()`. -/
def newScrollbar : M Widgetter := do
  let a := new "gtk.NewAdjustment"
    [.float 1 1, .float 0 1, .float 200 1, .float 1 1, .float 10 1, .float 10 1]
  return new "gtk.NewScrollbar" [.const "gtk.OrientationHorizontal", .obj a]

/-- The function `newImage()`. -/
def newImage : M Widgetter := do
  let w := new "gtk.NewImageFromIconName" [.str "face-cool"]
  let w := w.call "SetIconSize" [.const "gtk.IconSizeLarge"]
  return w

/-- The function `newPicture()`. -/
def newPicture : M Widgetter := do
  let pix ← pixbufLoader (← filesGet "gotk4.png")
  return new "gtk.NewPictureForPixbuf" [.pixbuf pix]

/-- The function `newSeparator()`. -/
def newSeparator : M Widgetter := do
  let sh := new "gtk.NewSeparator" [.const "gtk.OrientationHorizontal"]
  let sv := new "gtk.NewSeparator" [.const "gtk.OrientationVertical"]
  let boxV := gtknew.VBox 20 [gtknew.HBox 0 [sv]]
  let boxV := boxV.call "SetHExpand" [.bool true]
  return gtknew.HBox 40 [gtknew.HBox 0 [], sh, boxV]

/-- The function `newTextView()`. -/
def newTextView : M Widgetter := do
  let tv := new "gtk.NewTextView" []
  let tv := tv.call "SetVExpand" [.bool true]
  let tv := tv.call "SetHExpand" [.bool true]
  let tv := tv.call "Buffer().SetText" [.str "Text View\nis multiline", .int (-1)]
  return gtknew.VBox boxMargin [tv]

/-- The function `newScale()`. -/
def newScale : M Widgetter := do
  let w := new "gtk.NewScaleWithRange"
    [.const "gtk.OrientationHorizontal", .float 0 1, .float 1 1, .float 1 10]
  let w := w.call "SetValue" [.float 1 2]
  return gtknew.VBox boxMargin [w]

/-- The function `newDrawingArea()`. -/
def newDrawingArea : M Widgetter := do
  let w := new "gtk.NewDrawingArea" []
  let w := w.call "SetContentWidth" [.int 100]
  let w := w.call "SetContentHeight" [.int 100]
  let w := w.call "SetDrawFunc" [.func (.closure "newDrawingArea.func1")]
  return gtknew.VBox boxMargin [w]

/-- The function `newVideo()`. -/
def newVideo : M Widgetter := do
  let w := new "gtk.NewVideo" []
  return w

/-- The function `newMediaControls()`. -/
def newMediaControls : M Widgetter := do
  let w := new "gtk.NewMediaControls" [.obj (new "gtk.NewMediaFile" [])]
  return w

/-- The function `newWindowControls()`. -/
def newWindowControls : M Widgetter := do
  let w := new "gtk.NewWindowControls" [.const "gtk.PackStart"]
  let w := w.call "SetDecorationLayout" [.str "icon:minimize,maximize,close"]
  return w

/-- The function `newMenuBar()`. -/
def newMenuBar : M Widgetter := placeholder

/-- The function `newCalendar()`. -/
def newCalendar : M Widgetter :=
  return new "gtk.NewCalendar" []

/-- The function `newEmojiChooser()`. -/
def newEmojiChooser : M Widgetter := placeholder

/-- The function `newMenu()`. -/
def newMenu : M Widgetter := placeholder

/-! ## `gallery.go`: buttons -/

/-- The function `newButton()`. -/
def newButton : M Widgetter := do
  let w := new "gtk.NewButtonWithLabel" [.str "Button"]
  let w := w.call "Connect" [.str "clicked", .func (callPrint ["button 1 clicked"])]
  let x := new "gtk.NewButtonFromIconName" [.str "preferences-system"]
  let x := x.call "Connect" [.str "clicked", .func (callPrint ["button 2 clicked"])]
  return gtknew.VBox boxMargin [w, x]

/-- The function `newCheckButton()`. -/
def newCheckButton : M Widgetter := do
  let btn1 := new "gtk.NewCheckButtonWithLabel" [.str "CheckButton"]
  let btn2 := new "gtk.NewCheckButtonWithLabel" [.str "Not checked"]
  let btn1 := btn1.call "SetActive" [.bool true]
  let btn1 := btn1.call "Connect" [.str "toggled", .func (callPrint ["check 1 toggled"])]
  let btn2 := btn2.call "Connect" [.str "toggled", .func (callPrint ["check 2 toggled"])]
  return gtknew.VBox boxMargin [btn1, btn2]

/-- The function `newLinkButton()`. -/
def newLinkButton : M Widgetter := do
  let w := new "gtk.NewLinkButtonWithLabel" [.str "https://golang.org/", .str "Link Button"]
  let w := w.call "Connect" [.str "clicked", .func (callPrint ["link button clicked"])]
  return gtknew.VBox boxMargin [w]

/-- The loop of `newToggleGroup` over the button texts; `group` is the
previous button (nil at first) and `box` the box filled so far. -/
def newToggleGroup.loop : List String → Object → Object → Object
  | [], _, box => box
  | txt :: rest, group, box =>
      let btn := new "gtk.NewToggleButtonWithLabel" [.str txt]
      let btn := if group.isNil then btn.call "SetActive" [.bool true]
        else btn.call "SetGroup" [.obj group]
      let group := btn
      let box := box.call "Append" [.obj btn]
      let _btn := btn.call "Connect" [.str "toggled", .func (.closure "newToggleGroup.func1")]
      newToggleGroup.loop rest group box

/-- The function `newToggleGroup()`. -/
def newToggleGroup : M Widgetter := do
  let group := Object.nil
  let box := gtknew.VBox boxMargin []
  return newToggleGroup.loop ["Toggle", "Button"] group box

/-- The loop of `newRadioGroup` over the button texts. -/
def newRadioGroup.loop : List String → Object → Object → Object
  | [], _, box => box
  | txt :: rest, group, box =>
      let btn := new "gtk.NewCheckButtonWithMnemonic" [.str txt]
      let btn := if group.isNil then btn.call "SetActive" [.bool true]
        else btn.call "SetGroup" [.obj group]
      let group := btn
      let box := box.call "Append" [.obj btn]
      let _btn := btn.call "Connect" [.str "toggled", .func (.closure "newRadioGroup.func1")]
      newRadioGroup.loop rest group box

/-- The function `newRadioGroup()`. -/
def newRadioGroup : M Widgetter := do
  let group := Object.nil
  let box := gtknew.VBox boxMargin []
  return newRadioGroup.loop ["Radio Button", "second option"] group box

/-- The function `newMenuButton()`. -/
def newMenuButton : M Widgetter := do
  let btn := new "gtk.NewMenuButton" []
  let btn := btn.call "Connect"
    [.str "activate", .func (callPrint ["menu button value changed"])]
  let isMaximized := (← getEnv).winIsMaximized
  let vMax := new "glib.NewVariantBoolean" [.bool isMaximized]
  let actFullScreen := new "gio.NewSimpleActionStateful"
    [.str "fullscreen", .obj .nil, .obj vMax]
  let actQuit := new "gio.NewSimpleAction" [.str "quit", .obj .nil]
  let _actFullScreen := actFullScreen.call "Connect"
    [.str "change-state", .func (.closure "newMenuButton.func1")]
  let _actQuit := actQuit.call "Connect"
    [.str "activate", .func (.closure "newMenuButton.func2")]
  emit (.appCall "gapp.Win" "AddAction" ["fullscreen"])
  emit (.appCall "gapp.App" "AddAction" ["quit"])
  let menu := new "gio.NewMenu" []
  let menu := menu.call "Append" [.str "FullScreen", .str "win.fullscreen"]
  let menu := menu.call "Append" [.str "Quit", .str "app.quit"]
  let btn := btn.call "SetDirection" [.const "gtk.ArrowNone"]
  let btn := btn.call "SetMenuModel" [.obj menu]
  return gtknew.VBox boxMargin [btn.Widget]

/-- The function `newLockButton()`. -/
def newLockButton : M Widgetter := do
  let w := new "gtk.NewLockButton" [.obj (new "gio.NewSimplePermission" [.bool false])]
  let w := w.call "Connect" [.str "clicked", .func (callPrint ["lock button clicked"])]
  return w

/-- The function `newVolumeButton()`. -/
def newVolumeButton : M Widgetter := do
  let w := new "gtk.NewVolumeButton" []
  let w := w.call "Connect"
    [.str "value-changed", .func (callPrint ["volume button value changed"])]
  return gtknew.VBox boxMargin [w]

/-- The function `newSwitch()`. -/
def newSwitch : M Widgetter := do
  let btn1 := new "gtk.NewSwitch" []
  let btn2 := new "gtk.NewSwitch" []
  let btn1 := btn1.call "SetActive" [.bool true]
  let btn1 := btn1.call "Connect" [.str "activate", .func (callPrint ["switch 1 activated"])]
  let btn2 := btn2.call "Connect" [.str "activate", .func (callPrint ["switch 2 activated"])]
  let box := new "gtk.NewCenterBox" []
  let box := box.call "SetCenterWidget" [.obj (gtknew.VBox boxMargin [btn1, btn2])]
  return box

/-- The constant `ModelCBRef`. -/
def ModelCBRef : Int := 0

/-- The constant `ModelCBText`. -/
def ModelCBText : Int := 1

/-- The constant `ModelCBTooltip`. -/
def ModelCBTooltip : Int := 2

/-- The constant `ModelCBIcon`. -/
def ModelCBIcon : Int := 3

/-- The first loop of `newComboBox`: one `insertWithValues` per item, a
slice of strings indexed at 0 and 1. -/
def newComboBox.fill : List (List String) → ListStore → M ListStore
  | [], model => pure model
  | item :: rest, model => do
      let item0 ← match item[0]? with
        | some s => pure s
        | none => throw "index out of range [0]"
      let item1 ← match item[1]? with
        | some s => pure s
        | none => throw "index out of range [1]"
      let model ← insertWithValues model
        [(ModelCBRef, .string item0), (ModelCBText, .string item1)]
      newComboBox.fill rest model

/-- What `list.ActiveIter()` gives after `list.SetActiveID(id)` on a combo box
whose ID column is `column`: the first row holding the string `id` there. -/
def ComboBox.ActiveIter (model : ListStore) (column : Int) (id : String) : Option Nat :=
  let found := model.rows.findIdx fun row =>
    decide ((if 0 ≤ column then row.getD column.toNat none else none) = some (.string id))
  if found < model.rows.length then some found else none

/-- The callback of `model.Foreach` in `newComboBox`, run on the rows in
order: `content = append(content, gval.GoValue().(string))`; the type
assertion panics on a value that is not a string. -/
def newComboBox.func1 (model : ListStore) : List Nat → List String → M (List String)
  | [], content => pure content
  | iter :: rest, content => do
      match model.Value iter ModelCBText with
      | some (.string s) => newComboBox.func1 model rest (content ++ [s])
      | _ => throw "interface conversion: interface is not string"

/-- The function `newComboBox()`. -/
def newComboBox : M Widgetter := do
  let model := ListStore.New [.TypeString, .TypeString]
  let model ← newComboBox.fill
    [["0", "ComboBox"], ["1", "with"], ["2", "choices"]] model
  let list := new "gtk.NewComboBoxWithModel" [.model model]
  let list := list.call "SetIDColumn" [.int ModelCBRef]
  let list := list.call "SetEntryTextColumn" [.int ModelCBText]
  let cellText := new "gtk.NewCellRendererText" []
  let list := list.call "PackStart" [.obj cellText, .bool false]
  let list := list.call "AddAttribute" [.obj cellText, .str "markup", .int ModelCBText]
  let list := list.call "SetActiveID" [.str "0"]
  match ComboBox.ActiveIter model ModelCBRef "0" with
  | some iter =>
      if model.Value iter ModelCBText ≠ some (.string "ComboBox") then
        Println ["error combobox iter value is not", "ComboBox"]
  | none => pure ()
  let content ← newComboBox.func1 model (List.range model.rows.length) []
  if " ".intercalate content ≠ "ComboBox with choices" then
    Println ["error combobox values modified"]
  return list

/-- The function `newComboBoxText()`. -/
def newComboBoxText : M Widgetter := do
  let w := new "gtk.NewComboBoxText" []
  let w := w.call "AppendText" [.str "ComboBoxText"]
  let w := w.call "AppendText" [.str "is easier"]
  let w := w.call "AppendText" [.str "to implement"]
  let w := w.call "SetActive" [.int 0]
  let w := w.call "Connect"
    [.str "changed", .func (callPrint ["combo box text selection changed"])]
  return gtknew.VBox boxMargin [w]

/-- The function `newDropDown()`. -/
def newDropDown : M Widgetter :=
  return gtknew.VBox boxMargin
    [new "gtk.NewDropDownFromStrings" [.strs ["Drop Down", "is better", "than Combo Box"]]]

/-- The function `newColorButton()`. -/
def newColorButton : M Widgetter := do
  let color := new "gdk.NewRGBA" [.float 1 1, .float 0 1, .float 0 1, .float 1 1]
  let w := new "gtk.NewColorButton" []
  let w := w.call "SetRGBA" [.obj color]
  let w := w.call "Connect" [.str "color-set", .func (callPrint ["color button color set"])]
  return gtknew.VBox boxMargin [w]

/-- The function `newFontButton()`. -/
def newFontButton : M Widgetter := do
  let w := new "gtk.NewFontButton" []
  let w := w.call "Connect" [.str "activate", .func (callPrint ["font button activated"])]
  let w := w.call "Connect" [.str "font-set", .func (.closure "newFontButton.func1")]
  return gtknew.VBox boxMargin [w.Widget]

/-- The function `newApplicationButton()`. -/
def newApplicationButton : M Widgetter := do
  let w := new "gtk.NewAppChooserButton" [.str "video/avi"]
  let w := w.call "Connect" [.str "changed", .func (callPrint ["application button changed"])]
  return gtknew.VBox boxMargin [w]

/-! ## `gallery.go`: entries -/

/-- The function `newEntry()`. -/
def newEntry : M Widgetter := do
  let w := new "gtk.NewEntry" []
  let w := w.call "Buffer().SetText" [.str "Entry", .int (-1)]
  let w := w.call "Connect" [.str "changed", .func (.closure "newEntry.func1")]
  return gtknew.VBox boxMargin [w]

/-- The function `newSearchEntry()`. -/
def newSearchEntry : M Widgetter := do
  let w := new "gtk.NewSearchEntry" []
  let w := w.call "SetText" [.str "SearchEntry"]
  let w := w.call "Connect" [.str "search-changed", .func (.closure "newSearchEntry.func1")]
  return gtknew.VBox boxMargin [w]

/-- The function `newPasswordEntry()`. -/
def newPasswordEntry : M Widgetter := do
  let w := new "gtk.NewPasswordEntry" []
  let w := w.call "SetText" [.str "PasswordEntry"]
  let w := w.call "SetShowPeekIcon" [.bool true]
  let w := w.call "Connect" [.str "changed", .func (.closure "newPasswordEntry.func1")]
  return gtknew.VBox boxMargin [w]

/-- The function `newSpinButton()`. -/
def newSpinButton : M Widgetter := do
  let w := new "gtk.NewSpinButtonWithRange" [.float 1 1, .float 100 1, .float 1 1]
  let w := w.call "SetValue" [.float 42 1]
  let w := w.call "Connect" [.str "changed", .func (.closure "newSpinButton.func1")]
  return gtknew.VBox boxMargin [w]

/-- The function `newEditableLabel()`. -/
def newEditableLabel : M Widgetter := do
  let w := new "gtk.NewEditableLabel" [.str "EditableLabel"]
  let w := w.call "StartEditing" []
  let w := w.call "Connect" [.str "changed", .func (.closure "newEditableLabel.func1")]
  return gtknew.VBox boxMargin [w]

/-! ## `gallery.go`: containers -/

/-- The function `newBox()`. -/
def newBox : M Widgetter := do
  let h := new "gtk.NewBox" [.const "gtk.OrientationHorizontal", .int boxMargin]
  let h := h.call "Append" [.obj (gtknew.Frame "Horizontal" [])]
  let h := h.call "Append" [.obj (gtknew.Frame "-----" [])]
  let h := h.call "Append" [.obj (gtknew.Frame "-----" [])]
  let v := new "gtk.NewBox" [.const "gtk.OrientationVertical", .int boxMargin]
  let v := v.call "Append" [.obj (gtknew.Frame "Vertical" [])]
  let v := v.call "Append" [.obj (gtknew.Frame "-----" [])]
  let v := v.call "Append" [.obj (gtknew.Frame "-----" [])]
  let h := h.call "SetHExpand" [.bool true]
  let v := v.call "SetHExpand" [.bool true]
  let h := h.call "SetHAlign" [.const "gtk.AlignCenter"]
  let v := v.call "SetHAlign" [.const "gtk.AlignCenter"]
  return newHBoxExpand [h, v]

/-- The formatting `strconv.Itoa(n)` of a non-negative integer. -/
def Itoa (n : Nat) : String := toString n

/-- The loop `for i := 0; i < 6; i++` of `newGrid`, with `fuel` bounding the
number of iterations. -/
def newGrid.loop : Nat → Nat → Object → Object
  | 0, _, w => w
  | fuel + 1, i, w =>
      if i < 6 then
        newGrid.loop fuel (i + 1)
          (w.call "Attach" [.obj (gtknew.Frame (Itoa (i + 1)) []),
            .int (Int.ofNat (i % 3)), .int (Int.ofNat (i / 3)), .int 1, .int 1])
      else w

/-- The function `newGrid()`. -/
def newGrid : M Widgetter := do
  let w := new "gtk.NewGrid" []
  let w := newGrid.loop 7 0 w
  return w

/-- The function `newCenterBox()`. -/
def newCenterBox : M Widgetter := do
  let w := new "gtk.NewCenterBox" []
  let w := w.call "SetStartWidget" [.obj (gtknew.Frame "Left" [])]
  let w := w.call "SetCenterWidget" [.obj (gtknew.Frame "Center" [])]
  let w := w.call "SetEndWidget" [.obj (gtknew.Frame "Right" [])]
  return w

/-- The function `newScrolledWindow()`. -/
def newScrolledWindow : M Widgetter := do
  let box := gtknew.VBox 400 []
  let box := box.call "Append" [.obj (gtk.NewLabel "ScrolledWindow")]
  let box := box.call "Append" [.obj (gtk.NewLabel "Bottom")]
  let w := new "gtk.NewScrolledWindow" []
  let w := w.call "SetChild" [.obj (gtknew.VBox boxMargin [box])]
  let w := w.call "SetHasFrame" [.bool true]
  return w

/-- The function `newPaned()`. -/
def newPaned : M Widgetter := do
  let w := new "gtk.NewPaned" [.const "gtk.OrientationHorizontal"]
  let w := w.call "SetStartChild" [.obj (gtknew.Frame "Left" [])]
  let w := w.call "SetEndChild" [.obj (gtknew.Frame "Right" [])]
  return w

/-- The function `newFrame()`. -/
def newFrame : M Widgetter := do
  let w := new "gtk.NewFrame" [.str "Frame"]
  let w := w.call "SetChild" [.obj (gtk.NewLabel "with child")]
  return gtknew.VBox boxMargin [w]

/-- The function `newExpander()`. -/
def newExpander : M Widgetter := do
  let w := new "gtk.NewExpander" [.str "Expander"]
  let w := w.call "SetChild" [.obj (gtk.NewLabel "This was hidden")]
  return w

/-- The function `newSearchBar()`. -/
def newSearchBar : M Widgetter := do
  let e := new "gtk.NewSearchEntry" []
  let e := e.call "SetHExpand" [.bool true]
  let e := e.call "SetText" [.str "SearchBar"]
  let w := new "gtk.NewSearchBar" []
  let w := w.call "SetChild" [.obj (gtknew.VBox boxMargin [e])]
  let w := w.call "SetShowCloseButton" [.bool true]
  let w := w.call "SetSearchMode" [.bool true]
  return w

/-- The function `newActionBar()`. -/
def newActionBar : M Widgetter := do
  let cut := new "gtk.NewButtonFromIconName" [.str "edit-cut"]
  let copy := new "gtk.NewButtonFromIconName" [.str "edit-copy"]
  let paste := new "gtk.NewButtonFromIconName" [.str "edit-paste"]
  let close := new "gtk.NewButtonFromIconName" [.str "window-close"]
  let cut := cut.call "SetTooltipText" [.str "Cut"]
  let copy := copy.call "SetTooltipText" [.str "Copy"]
  let paste := paste.call "SetTooltipText" [.str "Paste"]
  let close := close.call "SetTooltipText" [.str "Close"]
  let w := new "gtk.NewActionBar" []
  let w := w.call "PackStart" [.obj (newHBoxExpand [cut, copy, paste])]
  let w := w.call "PackEnd" [.obj (newHBoxExpand [close])]
  let w := w.call "SetHExpand" [.bool true]
  let btn := new "gtk.NewToggleButtonWithLabel" [.str "Show"]
  let btn := btn.call "SetTooltipText" [.str "Show or hide the action bar"]
  let btn := btn.call "Connect" [.str "toggled", .func (.closure "newActionBar.func1")]
  let btn := btn.call "SetActive" [.bool true]
  return newHBoxExpand [btn, w]

/-- The function `newHeaderBar()`. -/
def newHeaderBar : M Widgetter := do
  let w := new "gtk.NewHeaderBar" []
  let w := w.call "SetShowTitleButtons" [.bool true]
  let w := w.call "SetDecorationLayout" [.str "icon:close"]
  let label := gtk.NewLabel "<b>HeaderBar</b>"
  let label := label.call "SetUseMarkup" [.bool true]
  let w := w.call "SetTitleWidget" [.obj label]
  return w

/-- The function `newNotebook()`. -/
def newNotebook : M Widgetter := do
  let w := new "gtk.NewNotebook" []
  let w := w.call "AppendPage" [.obj (gtk.NewLabel "Notebook"), .obj (gtk.NewLabel "Page 1")]
  let w := w.call "AppendPage" [.obj (gtk.NewLabel "another"), .obj (gtk.NewLabel "Page 2")]
  let w := w.call "AppendPage" [.obj (gtk.NewLabel "page"), .obj (gtk.NewLabel "Page 3")]
  let w := w.call "Connect" [.str "switch-page", .func (callPrint ["notebook page changed"])]
  return w

/-- The function `newListBox()`. -/
def newListBox : M Widgetter := do
  let b1 := newHBoxExpand []
  let b2 := newHBoxExpand []
  let b3 := newHBoxExpand []
  let b1 := b1.call "SetHExpand" [.bool true]
  let b2 := b2.call "SetHExpand" [.bool true]
  let b3 := b3.call "SetHExpand" [.bool true]
  let w := new "gtk.NewListBox" []
  let w := w.call "Append"
    [.obj (newHBoxExpand [gtk.NewLabel "Line One", b1, new "gtk.NewCheckButton" []])]
  let w := w.call "Append"
    [.obj (newHBoxExpand [gtk.NewLabel "Line Two", b2, new "gtk.NewButtonWithLabel" [.str "2"]])]
  let w := w.call "Append"
    [.obj (newHBoxExpand [gtk.NewLabel "Line Three", b3, new "gtk.NewEntry" []])]
  return w

/-- The function `newFlowBox()`. -/
def newFlowBox : M Widgetter := do
  let w := gtk.NewFlowBox
  let w := w.call "Insert" [.obj (gtk.NewLabel "Child One"), .int 0]
  let w := w.call "Insert" [.obj (new "gtk.NewButtonWithLabel" [.str "Child Two"]), .int 1]
  let w := w.call "Insert" [.obj (new "gtk.NewCheckButtonWithLabel" [.str "Child Three"]), .int 2]
  return w

/-- One element of the literal slice of `newTreeView`. -/
structure newTreeView.Data where
  ref : String
  text : String
  comment : String
  /-- A `float64`, as `num / den`. -/
  value : Int × Nat

/-- The loop of `newTreeView` that fills the model with values. -/
def newTreeView.fill : List newTreeView.Data → ListStore → M ListStore
  | [], model => pure model
  | data :: rest, model => do
      let model ← insertWithValues model
        [(ModelCBRef, .string data.ref),
         (ModelCBText, .string data.text),
         (ModelCBTooltip, .string data.comment),
         (ModelCBTooltip + 1, .float64 data.value.1 data.value.2)]
      newTreeView.fill rest model

/-- The function `newTreeView()`. -/
def newTreeView : M Widgetter := do
  let model := ListStore.New [.TypeString, .TypeString, .TypeString, .TypeInt]
  let model ← newTreeView.fill
    [⟨"0", "<b><big>TreeView</big></b>", "text 1", (20, 1)⟩,
     ⟨"1", "with", "text 2", (50, 1)⟩,
     ⟨"2", "texts", "<s>text 3</s>", (80, 1)⟩] model
  let w := new "gtk.NewTreeViewWithModel" [.model model]
  let cellText := new "gtk.NewCellRendererText" []
  let cellText := cellText.call "SetObjectProperty" [.str "editable", .bool true]
  let cellText := cellText.call "Connect" [.str "edited", .func (.closure "newTreeView.func1")]
  let columnText := new "gtk.NewTreeViewColumn" []
  let columnText := columnText.call "SetTitle" [.str "Name"]
  let columnText := columnText.call "SetResizable" [.bool true]
  let columnText := columnText.call "PackEnd" [.obj cellText, .bool false]
  let columnText := columnText.call "AddAttribute" [.obj cellText, .str "markup", .int ModelCBText]
  let w := w.call "AppendColumn" [.obj columnText]
  let cellTooltip := new "gtk.NewCellRendererText" []
  let columnTooltip := new "gtk.NewTreeViewColumn" []
  let columnTooltip := columnTooltip.call "SetTitle" [.str "Comment"]
  let columnTooltip := columnTooltip.call "PackEnd" [.obj cellTooltip, .bool false]
  let columnTooltip := columnTooltip.call "AddAttribute"
    [.obj cellTooltip, .str "markup", .int ModelCBTooltip]
  let w := w.call "AppendColumn" [.obj columnTooltip]
  let cellProgress := new "gtk.NewCellRendererProgress" []
  let cellProgress := cellProgress.call "SetObjectProperty" [.str "value", .int 100]
  let columnProgress := new "gtk.NewTreeViewColumn" []
  let columnProgress := columnProgress.call "PackEnd" [.obj cellProgress, .bool false]
  let columnProgress := columnProgress.call "AddAttribute"
    [.obj cellProgress, .str "value", .int (ModelCBTooltip + 1)]
  let w := w.call "AppendColumn" [.obj columnProgress]
  return w.Widget

/-- One element of the literal slice of `newIconview`. -/
structure newIconview.Data where
  ref : Int
  text : String
  tooltip : String
  icon : String

/-- The literal slice `newIconview` ranges over. -/
def newIconview.data : List newIconview.Data :=
  [⟨0, "<big>Iconview</big>", "tooltip 1", "gotk4.png"⟩,
   ⟨1, "with", "tooltip 2", "gopher-front.png"⟩,
   ⟨2, "icons", "tooltip 3", "gopher-side.png"⟩,
   ⟨3, "and <b>tooltips</b>", "tooltip 4", "gopher.png"⟩]

/-- The closure `newIconview` hands to `externglib.IdleAdd`, run on the model
with the row `iter` and the bytes `content` it captured. -/
def newIconview.func1 (model : ListStore) (iter : Nat) (content : Bytes) : M ListStore := do
  let pixbuf ← pixbufLoader content
  match pixbuf with
  | some p => return model.SetValue iter ModelCBIcon (.pixbuf p)
  | none => return model

/-- The loop of `newIconview` that fills the model with values. -/
def newIconview.fill : List newIconview.Data → ListStore → M ListStore
  | [], model => pure model
  | data :: rest, model => do
      let (model, iter) := model.Append
      let model := model.SetValue iter ModelCBRef (.int data.ref)
      let model := model.SetValue iter ModelCBText (.string data.text)
      let model := model.SetValue iter ModelCBTooltip (.string data.tooltip)
      let content ← filesGet data.icon
      emit (.idleAdd (.iconviewIcon iter content))
      newIconview.fill rest model

/-- The function `newIconview()`. -/
def newIconview : M Widgetter := do
  let model := ListStore.New [.TypeInt, .TypeString, .TypeString, .GdkPixbuf]
  let model ← newIconview.fill newIconview.data model
  let w := new "gtk.NewIconViewWithModel" [.model model]
  let w := w.call "SetActivateOnSingleClick" [.bool true]
  let w := w.call "SetMarkupColumn" [.int ModelCBText]
  let w := w.call "SetTooltipColumn" [.int ModelCBTooltip]
  let w := w.call "SetPixbufColumn" [.int ModelCBIcon]
  let w := w.call "Connect"
    [.str "selection-changed", .func (callPrint ["iconview selection changed"])]
  return gtknew.VBox boxMargin [w.Widget]

/-- The function `newOverlay()`. -/
def newOverlay : M Widgetter := do
  let w := new "gtk.NewOverlay" []
  let w := w.call "SetChild" [.obj (gtk.NewLabel "Overlay")]
  let w := w.call "AddOverlay" [.obj (gtk.NewLabel "\non top")]
  return w

/-- The function `newStack()`. -/
def newStack : Object :=
  let stack := new "gtk.NewStack" []
  let t1 := new "gtk.NewTextView" []
  let t2 := new "gtk.NewTextView" []
  let t3 := new "gtk.NewTextView" []
  let t1 := t1.call "Buffer().SetText" [.str "Page 1\n\n\n\n\ncontent", .int (-1)]
  let t2 := t2.call "Buffer().SetText" [.str "Page 2", .int (-1)]
  let t3 := t3.call "Buffer().SetText" [.str "Page 3", .int (-1)]
  let stack := stack.call "AddTitled" [.obj t1, .str "page1", .str "Page 1"]
  let stack := stack.call "AddTitled" [.obj t2, .str "page2", .str "Page 2"]
  let stack := stack.call "AddTitled" [.obj t3, .str "page3", .str "Page 3"]
  stack

/-- The function `newStackSwitcher()`. -/
def newStackSwitcher : M Widgetter := do
  let stack := newStack
  let stack := stack.call "SetTransitionType" [.const "gtk.StackTransitionTypeOverLeft"]
  let sw := new "gtk.NewStackSwitcher" []
  let sw := sw.call "SetStack" [.obj stack]
  return gtknew.VBox boxMargin [sw, stack]

/-- The function `newStackSidebar()`. -/
def newStackSidebar : M Widgetter := do
  let stack := newStack
  let stack := stack.call "SetTransitionType" [.const "gtk.StackTransitionTypeOverUp"]
  let stack := stack.call "SetVisibleChildName" [.str "page2"]
  let stack := stack.call "SetHExpand" [.bool true]
  let stack := stack.call "SetVExpand" [.bool true]
  let sw := new "gtk.NewStackSidebar" []
  let sw := sw.call "SetStack" [.obj stack]
  let box := gtknew.HBox boxMargin []
  let box := box.call "Append" [.obj sw]
  let box := box.call "Append" [.obj stack]
  return box

/-- The function `newPopOver()`. -/
def newPopOver : M Widgetter := placeholder

/-! ## `gallery.go`: windows -/

/-- The function `newWindow()`. -/
def newWindow : M Widgetter :=
  return buttonAction "Window" "document-new" (.closure "newWindow.func1")

/-- The function `newDialog()`. -/
def newDialog : M Widgetter :=
  return buttonAction "Dialog" "document-open" (.closure "newDialog.func1")

/-- The function `newCustomDialog()`. -/
def newCustomDialog : M Widgetter :=
  return buttonAction "Custom Dialog" "document-properties" (.closure "newCustomDialog.func1")

/-- The function `newMessageDialog()`. -/
def newMessageDialog : M Widgetter := placeholder

/-- The function `newAboutDialog()`. -/
def newAboutDialog : M Widgetter :=
  return buttonAction "AboutDialog" "help-about" (.closure "newAboutDialog.func1")

/-- The function `newAssistant()`. -/
def newAssistant : M Widgetter :=
  return buttonAction "Assistant" "system-help" (.closure "newAssistant.func1")

/-- The function `newPrintPageSetupDialog()`. -/
def newPrintPageSetupDialog : M Widgetter :=
  return buttonAction "PageSetupDialog" "document-page-setup"
    (.closure "newPrintPageSetupDialog.func1")

/-- The function `newPrintDialog()`. -/
def newPrintDialog : M Widgetter := placeholder

/-- The function `newShortcutsWindow()`. -/
def newShortcutsWindow : M Widgetter :=
  return buttonAction "ShortcutsWindow" "preferences-desktop-keyboard"
    (.closure "newShortcutsWindow.func1")

/-- The function `newColorChooser()`. -/
def newColorChooser : M Widgetter := do
  let w := new "gtk.NewColorChooserWidget" []
  let w := w.call "Connect" [.str "color-activated", .func (.closure "newColorChooser.func1")]
  return gtknew.Expander "ColorChooser" w

/-- The function `newFileChooser()`. -/
def newFileChooser : M Widgetter := do
  let w := new "gtk.NewFileChooserWidget" [.const "gtk.FileChooserActionOpen"]
  let w := w.call "SetSelectMultiple" [.bool true]
  let w := w.call "Connect" [.str "up-folder", .func (.closure "newFileChooser.func1")]
  let w := w.call "Connect" [.str "down-folder", .func (.closure "newFileChooser.func2")]
  return gtknew.Expander "FileChooser" w

/-- The function `newFontChooser()`. -/
def newFontChooser : M Widgetter := do
  let w := new "gtk.NewFontChooserWidget" []
  let w := w.call "Connect" [.str "font-activated", .func (.closure "newFontChooser.func1")]
  return gtknew.Expander "FontChooser" w.Widget

/-- The function `newAppchooserDialog()`. -/
def newAppchooserDialog : M Widgetter := do
  let w := new "gtk.NewAppChooserWidget" [.str "video/avi"]
  let w := w.call "Connect"
    [.str "application-selected", .func (.closure "newAppchooserDialog.func1")]
  return gtknew.Expander "AppchooserDialog" w.Widget

/-! ## `gallery.go`: the widget lists and `main` -/

/-- The table `listDisplays`. -/
def listDisplays : Group := [
  ⟨"Label", newLabel⟩,
  ⟨"Spinner", newSpinner⟩,
  ⟨"StatusBar", newStatusBar⟩,
  ⟨"LevelBar", newLevelBar⟩,
  ⟨"ProgressBar", newProgressBar⟩,
  ⟨"InfoBar", newInfoBar⟩,
  ⟨"ScrollBar", newScrollbar⟩,
  ⟨"Image", newImage⟩,
  ⟨"Picture", newPicture⟩,
  ⟨"Separator", newSeparator⟩,
  ⟨"TextView", newTextView⟩,
  ⟨"Scale", newScale⟩,
  ⟨"DrawingArea", newDrawingArea⟩,
  ⟨"Video", newVideo⟩,
  ⟨"MediaControls", newMediaControls⟩,
  ⟨"WindowControls", newWindowControls⟩,
  ⟨"MenuBar", newMenuBar⟩,
  ⟨"Calendar", newCalendar⟩,
  ⟨"EmojiChooser", placeholder⟩,
  ⟨"Menu", placeholder⟩]

/-- The table `listButtons`. -/
def listButtons : Group := [
  ⟨"Button", newButton⟩,
  ⟨"ToggleButton", newToggleGroup⟩,
  ⟨"LinkButton", newLinkButton⟩,
  ⟨"CheckButton", newCheckButton⟩,
  ⟨"RadioButton", newRadioGroup⟩,
  ⟨"MenuButton", newMenuButton⟩,
  ⟨"LockButton", newLockButton⟩,
  ⟨"VolumeButton", newVolumeButton⟩,
  ⟨"Switch", newSwitch⟩,
  ⟨"ComboBox", newComboBox⟩,
  ⟨"ComboBoxText", newComboBoxText⟩,
  ⟨"DropDown", newDropDown⟩,
  ⟨"ColorButton", newColorButton⟩,
  ⟨"FontButton", newFontButton⟩,
  ⟨"ApplicationButton", newApplicationButton⟩]

/-- The table `listEntries`. -/
def listEntries : Group := [
  ⟨"Entry", newEntry⟩,
  ⟨"SearchEntry", newSearchEntry⟩,
  ⟨"PasswordEntry", newPasswordEntry⟩,
  ⟨"Spinbutton", newSpinButton⟩,
  ⟨"EditableLabel", newEditableLabel⟩]

/-- The table `listContainers`. -/
def listContainers : Group := [
  ⟨"Box", newBox⟩,
  ⟨"Grid", newGrid⟩,
  ⟨"CenterBox", newCenterBox⟩,
  ⟨"ScrolledWindow", newScrolledWindow⟩,
  ⟨"Paned", newPaned⟩,
  ⟨"Frame", newFrame⟩,
  ⟨"Expander", newExpander⟩,
  ⟨"SearchBar", newSearchBar⟩,
  ⟨"ActionBar", newActionBar⟩,
  ⟨"HeaderBar", newHeaderBar⟩,
  ⟨"Notebook", newNotebook⟩,
  ⟨"ListBox", newListBox⟩,
  ⟨"FlowBox", newFlowBox⟩,
  ⟨"TreeView", newTreeView⟩,
  ⟨"Iconview", newIconview⟩,
  ⟨"Overlay", newOverlay⟩,
  ⟨"StackSwitcher", newStackSwitcher⟩,
  ⟨"StackSidebar", newStackSidebar⟩,
  ⟨"PopOver", newPopOver⟩]

/-- The table `listWindows`. -/
def listWindows : Group := [
  ⟨"Window", newWindow⟩,
  ⟨"Dialog", newDialog⟩,
  ⟨"CustomDialog", newCustomDialog⟩,
  ⟨"MessageDialog", newMessageDialog⟩,
  ⟨"AboutDialog", newAboutDialog⟩,
  ⟨"Assistant", newAssistant⟩,
  ⟨"PageSetupDialog", newPrintPageSetupDialog⟩,
  ⟨"PrintDialog", newPrintDialog⟩,
  ⟨"ShortcutsWindow", newShortcutsWindow⟩,
  ⟨"ColorChooser", newColorChooser⟩,
  ⟨"FileChooser", newFileChooser⟩,
  ⟨"FontChooser", newFontChooser⟩,
  ⟨"AppchooserDialog", newAppchooserDialog⟩]

/-- The index expression `s[i]` on a slice: a run-time panic when `i` is out
of range. -/
def sliceGet {α : Type} (s : List α) (i : Nat) : M α :=
  match s[i]? with
  | some x => pure x
  | none => throw "index out of range"

/-- The assignment `s[i] = x` on a slice: a run-time panic when `i` is out of
range. -/
def sliceSet {α : Type} (s : List α) (i : Nat) (x : α) : M (List α) :=
  if i < s.length then pure (s.set i x) else throw "index out of range"

/-- The first statements of `main`: preload pixbuf data for the icon view. -/
def main.preload : M Unit := do
  filesSet "gotk4.png"
    (← downloadFile "https://avatars.githubusercontent.com/u/13782055?s=200&v=4")
  filesSet "gopher-front.png" (← downloadFile (imageSource ++ "gopher-front.png"))
  filesSet "gopher-side.png" (← downloadFile (imageSource ++ "gopher-side_color.png"))
  filesSet "gopher.png" (← downloadFile (imageSource ++ "gopher.png"))

/-- The slice literal `titles` of `main`. -/
def main.titles : List String := ["Displays", "Buttons", "Entries", "Containers", "Windows"]

/-- The slice literal of groups `main` ranges over. -/
def main.groups : List Group :=
  [listDisplays, listButtons, listEntries, listContainers, listWindows]

/-- The loop `for i, list := range groups { widgets[i] = list.Widgets(titles[i]) }`
of `main`. -/
def main.loop (titles : List String) :
    List Group → Nat → List Widgetter → M (List Widgetter)
  | [], _, widgets => pure widgets
  | list :: rest, i, widgets => do
      let title ← sliceGet titles i
      let made ← list.Widgets title
      let widgets ← sliceSet widgets i made
      main.loop titles rest (i + 1) widgets

/-- The statements of `main` that create the widgets groups: the slice
`widgets` as it is passed to `gtknew.VBox`. -/
def main.widgets : M (List Widgetter) := do
  let widgets := List.replicate 6 Object.nil
  let titles := main.titles
  let widgets ← main.loop titles main.groups 0 widgets
  let widgets ← sliceSet widgets 5 (← NewCustomWidgetStarted).toWidgetter
  return widgets

/-- The function passed to `gapp.Run` by `main`. -/
def main : M Widgetter := do
  main.preload
  let widgets ← main.widgets
  let box := gtknew.VBox 10 widgets
  return gtknew.ScrolledWindow box

/-! ## The GLib main loop and the user -/

/-- The main loop running, in order, the closures `newIconview` queued, on the
model they captured. -/
def newIconview.idle : List IdleTask → ListStore → M ListStore
  | [], model => pure model
  | .iconviewIcon iter content :: rest, model => do
      let model ← newIconview.func1 model iter content
      newIconview.idle rest model
  | .labelTimeSetLabel _ :: rest, model => newIconview.idle rest model

/-- The main loop running, in order, the closures `Loop` queued, on the
widget they captured. -/
def CustomWidget.idle : List IdleTask → CustomWidget → CustomWidget
  | [], w => w
  | .labelTimeSetLabel text :: rest, w => CustomWidget.idle rest (CustomWidget.Loop.func1 w text)
  | .iconviewIcon _ _ :: rest, w => CustomWidget.idle rest w

/-- The user toggling the switch `n` times in a row. -/
def CustomWidget.toggles : Nat → CustomWidget → M CustomWidget
  | 0, w => pure w
  | n + 1, w => do
      let w ← w.toggle
      CustomWidget.toggles n w

/-- The model a view was made with (`gtk.New...WithModel(model)`). -/
def Object.ctorModel : Object → Option ListStore
  | .mk _ (.model m :: _) _ => some m
  | _ => none

/-! ## `gallery.go`: the click handlers that load a UI resource -/

/-- The value `b.Errors()` of type `grun.Errors`, by what its two methods
return. -/
structure Errors where
  IsError : Bool
  Error : String

/-- A `buildhelp` builder after it has loaded a UI resource: the errors of the
load and the objects it gives for an identifier. -/
structure Builder where
  Errors : Errors
  Dialog : String → Object
  ShortcutsWindow : String → Object

/-- Go code run as a callback by the main loop.  Unlike in `M`, the world as
it is when the code panics stays observable: a run gives the result or the
panic value, and the world. -/
abbrev Callback := ExceptT String (StateM World)

/-- Record an event from a callback. -/
def Callback.emit (e : Event) : Callback Unit :=
  modify fun w => { w with trace := w.trace ++ [e] }

/-- The call `fmt.Println(args...)` from a callback. -/
def Callback.Println (args : List String) : Callback Unit :=
  Callback.emit (.print (" ".intercalate args ++ "\n"))

/-- The function `testError(errs)`. -/
def testError (errs : Errors) : Callback Unit := do
  if errs.IsError then
    Callback.Println [errs.Error]
    throw "builder errors"

/-- The UI text `newCustomDialog` gives to `buildhelp.NewFromString`. -/
def newCustomDialog.ui : String :=
  "\n<?xml version=\"1.0\" encoding=\"UTF-8\"?>\n<interface>\n" ++
  "   <object class=\"GtkDialog\" id=\"dialog1\">\n" ++
  "     <child type=\"action\">\n" ++
  "       <object class=\"GtkButton\" id=\"button_cancel\"/>\n" ++
  "     </child>\n" ++
  "     <child type=\"action\">\n" ++
  "       <object class=\"GtkButton\" id=\"button_ok\">\n" ++
  "       </object>\n" ++
  "     </child>\n" ++
  "     <action-widgets>\n" ++
  "       <action-widget response=\"cancel\">button_cancel</action-widget>\n" ++
  "       <action-widget response=\"ok\" default=\"true\">button_ok</action-widget>\n" ++
  "     </action-widgets>\n" ++
  "   </object>\n" ++
  "</interface>"

/-- The click handler of `newCustomDialog`; `NewFromString` is what
`buildhelp.NewFromString` makes of a UI text.  The calls on the dialog `w`
are recorded as events on the window named by its identifier. -/
def newCustomDialog.func1 (NewFromString : String → Builder) : Callback Unit := do
  let b := NewFromString newCustomDialog.ui
  let w := b.Dialog "dialog1"
  testError b.Errors
  let w := w.call "Connect" [.str "response", .func (.closure "newCustomDialog.func1.1")]
  Callback.emit (.appCall "dialog1" "Connect" ["response"])
  let _w := w.call "Show" []
  Callback.emit (.appCall "dialog1" "Show" [])

/-- The click handler of `newShortcutsWindow`; `NewFromFile` is what
`buildhelp.NewFromFile` makes of a file name. -/
def newShortcutsWindow.func1 (NewFromFile : String → Builder) : Callback Unit := do
  let b := NewFromFile "shortcuts-clocks.ui"
  let w := b.ShortcutsWindow "shortcuts-clocks"
  testError b.Errors
  let _w := w.call "Show" []
  Callback.emit (.appCall "shortcuts-clocks" "Show" [])

/-! ## Properties the theorems speak about -/

/-- The environment visits the entries of a map in some order, each once. -/
def Env.mapRangeOk (env : Env) : Prop :=
  ∀ d : List (Int × GValue), (env.mapRange d).Perm d

/-- The file names of the image assets. -/
def assetNames : List String :=
  ["gotk4.png", "gopher-front.png", "gopher-side.png", "gopher.png"]

/-- The events the construction of widgets may cause: no request to the
network, no assignment to `files`, and lookups in `files` of asset names
only. -/
def Event.byConstructor : Event → Bool
  | .httpGet _ => false
  | .bodyClose _ => false
  | .filesWrite _ => false
  | .filesRead k => decide (k ∈ assetNames)
  | .print _ => true
  | .idleAdd _ => true
  | .go _ => true
  | .appCall _ _ _ => true

/-- The world `w'` comes from `w` by constructing widgets: same environment,
same `files`, and the trace grew by constructor events. -/
def Built (w w' : World) : Prop :=
  w'.env = w.env ∧ w'.files = w.files ∧
    ∃ δ : List Event, w'.trace = w.trace ++ δ ∧ ∀ e ∈ δ, e.byConstructor = true

/-- A computation that, in every world, does not panic, returns a value
satisfying `Q`, and only constructs. -/
def Runs {α : Type} (m : M α) (Q : α → Prop) : Prop :=
  ∀ w : World, w.env.mapRangeOk →
    ∃ (x : α) (w' : World), m.run w = .ok (x, w') ∧ Q x ∧ Built w w'

/-- A widget maker that, in every world, returns a live widget and only
constructs. -/
def Makes (m : M Widgetter) : Prop := Runs m fun x => x.isNil = false

/-- The world at the start of `main`: `files` is the empty map and nothing
has happened yet. -/
def World.init (env : Env) : World := { env := env, files := [], trace := [] }

/-- An environment for examples: every request fails, no image decodes, maps
are visited in the order written. -/
def Env.offline : Env where
  httpGet := fun _ => .getError "offline"
  loaderPixbuf := fun _ => none
  loaderClose := fun _ => some "unrecognized image file format"
  winIsMaximized := false
  mapRange := fun d => d
  stampMilli := fun t => toString t

/-- What a download gives in an environment: the body when the request and
the read both succeed, the nil slice otherwise. -/
def Env.fetched (env : Env) (url : String) : Bytes :=
  match env.httpGet url with
  | .response _ byts none => some byts
  | _ => none

/-- Whether a download fails in an environment: the request fails, or the
read of the body does. -/
def Env.fails (env : Env) (url : String) : Prop :=
  (∃ e, env.httpGet url = .getError e) ∨ (∃ st b e, env.httpGet url = .response st b (some e))

/-- The events of one download in an environment. -/
def Env.fetchEvents (env : Env) (url : String) : List Event :=
  .httpGet url ::
    match env.httpGet url with
    | .getError e => [.print ("can\x27t find icon url (" ++ url ++ "): " ++ e)]
    | .response _ _ (some e) =>
        [.bodyClose url, .print ("can\x27t download icon (" ++ url ++ "): " ++ e)]
    | .response _ _ none => [.bodyClose url]

/-- The four URLs `main` downloads, in order. -/
def startupURLs : List String :=
  ["https://avatars.githubusercontent.com/u/13782055?s=200&v=4",
   imageSource ++ "gopher-front.png",
   imageSource ++ "gopher-side_color.png",
   imageSource ++ "gopher.png"]

/-- The keys of `files` written so far, in order. -/
def writesOf (trace : List Event) : List String :=
  trace.filterMap fun e => match e with
    | .filesWrite k => some k
    | _ => none

/-- The keys of `files` looked up so far, in order. -/
def readsOf (trace : List Event) : List String :=
  trace.filterMap fun e => match e with
    | .filesRead k => some k
    | _ => none

/-- The closures handed to the main loop so far, in order. -/
def idleOf (trace : List Event) : List IdleTask :=
  trace.filterMap fun e => match e with
    | .idleAdd t => some t
    | _ => none

/-- The slice `widgets` of `main` holds, in order, the five category frames
(each table under its own title, the children of its flow box carrying the
names of the table, only "Containers" limited to two per line) and then
`last`. -/
def main.framed (ws : List Widgetter) (last : Widgetter) : Prop :=
  ∃ b0 b1 b2 b3 b4 : Widgetter,
    ws = [gtknew.Frame "Displays" [b0], gtknew.Frame "Buttons" [b1],
          gtknew.Frame "Entries" [b2], gtknew.Frame "Containers" [b3],
          gtknew.Frame "Windows" [b4], last] ∧
    (FlowBox.children b0).map Object.ctorTitle = listDisplays.map (fun i => some i.Name) ∧
    (FlowBox.children b1).map Object.ctorTitle = listButtons.map (fun i => some i.Name) ∧
    (FlowBox.children b2).map Object.ctorTitle = listEntries.map (fun i => some i.Name) ∧
    (FlowBox.children b3).map Object.ctorTitle = listContainers.map (fun i => some i.Name) ∧
    (FlowBox.children b4).map Object.ctorTitle = listWindows.map (fun i => some i.Name) ∧
    [b0, b1, b2, b3, b4].map FlowBox.maxChildrenPerLine = [none, none, none, some 2, none]

/-- A custom widget as `NewCustomWidget` leaves it and as toggles keep it:
live switch and status label, `switchToggled` connected to `state-set`, and
a status text that goes with the switch value. -/
def CustomWidget.Settled (w : CustomWidget) : Prop :=
  w.sw.isNil = false ∧ w.labelState.isNil = false ∧
    w.sw.connected "state-set" (.method "box.switchToggled") = true ∧
    Label.text w.labelState = (if w.Active then "Active" else "Inactive")

/-- The URLs requested with `http.Get` so far, in order. -/
def getsOf (trace : List Event) : List String :=
  trace.filterMap fun e => match e with
    | .httpGet url => some url
    | _ => none

/-- The names of the catalog entries whose demo is not implemented. -/
def notImplemented : List String :=
  ["MenuBar", "EmojiChooser", "Menu", "PopOver", "MessageDialog", "PrintDialog"]

/-- The five tables of the catalog, one after the other. -/
def catalog : List GroupItem :=
  listDisplays ++ listButtons ++ listEntries ++ listContainers ++ listWindows

/-- The model columns a view or a cell layout is told to use: the column
arguments of `SetIDColumn`, `SetEntryTextColumn`, `SetMarkupColumn`,
`SetTooltipColumn`, `SetPixbufColumn` and `AddAttribute`, in call order. -/
def Object.columnsUsed (o : Object) : List Int :=
  o.calls.filterMap fun c => match c with
    | ("SetIDColumn", [.int k]) => some k
    | ("SetEntryTextColumn", [.int k]) => some k
    | ("SetMarkupColumn", [.int k]) => some k
    | ("SetTooltipColumn", [.int k]) => some k
    | ("SetPixbufColumn", [.int k]) => some k
    | ("AddAttribute", [_, _, .int k]) => some k
    | _ => none

/-- The columns given to a tree view with `AppendColumn`, in call order. -/
def Object.appendedColumns (o : Object) : List Object :=
  o.calls.filterMap fun c => match c with
    | ("AppendColumn", [.obj col]) => some col
    | _ => none

/-- The children attached to a `gtk.Grid`, each with its column, row, width
and height, in call order. -/
def Grid.cells (o : Object) : List (Object × Int × Int × Int × Int) :=
  o.calls.filterMap fun c => match c with
    | ("Attach", [.obj child, .int column, .int row, .int width, .int height]) =>
        some (child, column, row, width, height)
    | _ => none

/-- Whether a wrapped Go value has the type declared for a column: a Go
`string` for `TypeString`, a Go `int` for `TypeInt`, a pixbuf for the
pixbuf type; a `float64` has none of the three. -/
def GValue.hasType : GValue → GType → Bool
  | .string _, .TypeString => true
  | .int _, .TypeInt => true
  | .pixbuf _, .GdkPixbuf => true
  | _, _ => false

/-- The row `InsertWithValues` makes of the entries `data` in a store of `n`
columns, when they are taken in the order written. -/
def rowOf (n : Nat) (data : List (Int × GValue)) : List (Option GValue) :=
  data.foldl (fun r kv => ListStore.setCell r kv.1 kv.2) (List.replicate n none)

theorem flowInsert_length (xs : List Object) (x : Object) :
    flowInsert xs x (Int.ofNat xs.length) = xs ++ [x] := by
  simp [flowInsert]

theorem Object.calls_call (o : Object) (h : o.isNil = false) (m : String) (a : List Arg) :
    (o.call m a).calls = o.calls ++ [(m, a)] := by
  cases o with
  | nil => simp [Object.isNil] at h
  | mk c args cs => rfl

theorem Object.isNil_call (o : Object) (m : String) (a : List Arg) :
    (o.call m a).isNil = o.isNil := by
  cases o <;> rfl

theorem FlowBox.children_call_Insert (box : Object) (h : box.isNil = false) (x : Object) (p : Int) :
    FlowBox.children (box.call "Insert" [.obj x, .int p]) = flowInsert (FlowBox.children box) x p := by
  simp [FlowBox.children, Object.calls_call box h, List.foldl_append]

theorem newContainer.loop_children (items : List Widgetter) :
    ∀ (box : Object), box.isNil = false →
      FlowBox.children (newContainer.loop items (FlowBox.children box).length box)
        = FlowBox.children box ++ items := by
  induction items with
  | nil => intro box _; simp [newContainer.loop]
  | cons item rest ih =>
    intro box hb
    have h1 : FlowBox.children (box.call "Insert" [.obj item, .int (Int.ofNat (FlowBox.children box).length)])
        = FlowBox.children box ++ [item] := by
      rw [FlowBox.children_call_Insert box hb, flowInsert_length]
    have h2 := ih (box.call "Insert" [.obj item, .int (Int.ofNat (FlowBox.children box).length)])
      (by rw [Object.isNil_call]; exact hb)
    rw [h1] at h2
    simp only [List.length_append, List.length_singleton] at h2
    simp only [newContainer.loop]
    rw [h2]; simp


theorem newContainer.loop_isNil (items : List Widgetter) :
    ∀ (i : Nat) (box : Object), (newContainer.loop items i box).isNil = box.isNil := by
  induction items with
  | nil => intro i box; rfl
  | cons item rest ih => intro i box; simp [newContainer.loop, ih, Object.isNil_call]

theorem FlowBox.children_call_other (box : Object) (m : String) (a : List Arg)
    (hm : m ≠ "Insert") :
    FlowBox.children (box.call m a) = FlowBox.children box := by
  cases box with
  | nil => rfl
  | mk c args cs =>
    simp only [FlowBox.children, Object.call, Object.calls, List.foldl_append, List.foldl_cons,
      List.foldl_nil]
    split
    · rename_i heq; simp at heq; exact absurd heq.1 hm
    · rfl

theorem newContainer_children (isWide : Bool) (items : List Widgetter) :
    FlowBox.children (newContainer isWide items) = items := by
  have h0 : FlowBox.children (gtk.NewFlowBox.call "SetSelectionMode" [.const "gtk.SelectionNone"]) = [] := rfl
  have h := newContainer.loop_children items
    (gtk.NewFlowBox.call "SetSelectionMode" [.const "gtk.SelectionNone"]) rfl
  rw [h0] at h
  simp only [List.length_nil, List.nil_append] at h
  unfold newContainer
  cases isWide
  · simpa using h
  · simp only [if_true]
    rw [FlowBox.children_call_other _ _ _ (by decide)]
    exact h

theorem FlowBox.max_call_Insert (box : Object) (x : Object) (p : Int) :
    FlowBox.maxChildrenPerLine (box.call "Insert" [.obj x, .int p]) = FlowBox.maxChildrenPerLine box := by
  cases box with
  | nil => rfl
  | mk c args cs =>
    simp [FlowBox.maxChildrenPerLine, Object.call, Object.calls, List.foldl_append]

theorem newContainer.loop_max (items : List Widgetter) :
    ∀ (i : Nat) (box : Object),
      FlowBox.maxChildrenPerLine (newContainer.loop items i box) = FlowBox.maxChildrenPerLine box := by
  induction items with
  | nil => intro i box; rfl
  | cons item rest ih =>
    intro i box
    simp only [newContainer.loop]
    rw [ih, FlowBox.max_call_Insert]

theorem newContainer_max (isWide : Bool) (items : List Widgetter) :
    FlowBox.maxChildrenPerLine (newContainer isWide items) = if isWide then some 2 else none := by
  unfold newContainer
  cases isWide
  · simp only [Bool.false_eq_true, if_false]
    rw [newContainer.loop_max]; rfl
  · simp only [if_true]
    have hn : (newContainer.loop items 0 (gtk.NewFlowBox.call "SetSelectionMode" [.const "gtk.SelectionNone"])).isNil = false := by
      rw [newContainer.loop_isNil]; rfl
    generalize newContainer.loop items 0 _ = b at hn
    cases b with
    | nil => simp [Object.isNil] at hn
    | mk c args cs =>
      simp [FlowBox.maxChildrenPerLine, Object.call, Object.calls, List.foldl_append]


theorem Group.Widgets.loop_run (l : List GroupItem) :
    ∀ (acc : List Widgetter) (w : World),
      (Group.Widgets.loop l acc).run w =
        ((List.mapM GroupItem.Make l : M (List Widgetter)).run w).map
          (fun p => (acc ++ List.zipWith (fun item x => gtknew.Frame item.Name [x]) l p.1, p.2)) := by
  induction l with
  | nil => intro acc w; simp [Group.Widgets.loop]; rfl
  | cons item rest ih =>
    intro acc w
    simp only [Group.Widgets.loop, List.mapM_cons, StateT.run_bind]
    cases hm : item.Make.run w with
    | error e => rfl
    | ok p =>
      obtain ⟨x, w1⟩ := p
      simp only [Except.bind, bind, Except.map]
      rw [ih]
      cases hr : (List.mapM GroupItem.Make rest).run w1 with
      | error e => rfl
      | ok q =>
        simp [Except.map, pure, StateT.pure, Except.pure, StateT.run, StateT.map]

theorem mapM_Make_length (l : List GroupItem) :
    ∀ (w w' : World) (ws : List Widgetter),
      (List.mapM GroupItem.Make l : M (List Widgetter)).run w = .ok (ws, w') →
        ws.length = l.length := by
  induction l with
  | nil =>
    intro w w' ws h
    simp only [List.mapM_nil] at h
    cases h
    rfl
  | cons item rest ih =>
    intro w w' ws h
    simp only [List.mapM_cons, StateT.run_bind] at h
    cases hm : item.Make.run w with
    | error e => rw [hm] at h; cases h
    | ok p =>
      obtain ⟨x, w1⟩ := p
      rw [hm] at h
      simp only [Except.bind, bind] at h
      cases hr : (List.mapM GroupItem.Make rest).run w1 with
      | error e => rw [hr] at h; cases h
      | ok q =>
        obtain ⟨xs, w2⟩ := q
        rw [hr] at h
        simp [pure, StateT.pure, Except.pure, StateT.run] at h
        obtain ⟨h1, _⟩ := h
        subst h1
        simp [ih w1 w2 xs hr]


/-! ## Running computations -/

theorem ok_bind {ε α β : Type} (a : α) (f : α → Except ε β) :
    (Except.ok a >>= f) = f a := rfl

theorem pure_eq_ok {ε α : Type} (a : α) : (pure a : Except ε α) = Except.ok a := rfl

theorem error_bind {ε α β : Type} (e : ε) (f : α → Except ε β) :
    ((Except.error e : Except ε α) >>= f) = Except.error e := rfl

theorem run_pure' {α : Type} (x : α) (w : World) : (pure x : M α).run w = .ok (x, w) := rfl

theorem run_throw {α : Type} (e : String) (w : World) :
    (throw e : M α).run w = .error e := rfl

theorem run_bind_ok {α β : Type} (m : M α) (f : α → M β) (w w1 : World) (x : α)
    (h : m.run w = .ok (x, w1)) : (m >>= f).run w = (f x).run w1 := by
  simp only [StateT.run_bind, h]; rfl

theorem emit_run (e : Event) (w : World) :
    (emit e).run w = .ok ((), { w with trace := w.trace ++ [e] }) := rfl

theorem Printf_run (s : String) (w : World) :
    (Printf s).run w = .ok ((), { w with trace := w.trace ++ [.print s] }) := rfl

theorem Println_run (args : List String) (w : World) :
    (Println args).run w =
      .ok ((), { w with trace := w.trace ++ [.print (" ".intercalate args ++ "\n")] }) := rfl

theorem getEnv_run (w : World) : getEnv.run w = .ok (w.env, w) := rfl

theorem filesGet_run (k : String) (w : World) :
    (filesGet k).run w = .ok (mapGet w.files k, { w with trace := w.trace ++ [.filesRead k] }) := rfl

theorem filesSet_run (k : String) (v : Bytes) (w : World) :
    (filesSet k v).run w =
      .ok ((), { w with trace := w.trace ++ [.filesWrite k], files := mapSet w.files k v }) := rfl

theorem pixbufLoader_run (byts : Bytes) (w : World) :
    (pixbufLoader byts).run w = .ok (w.env.loaderPixbuf byts,
      { w with trace := w.trace ++
          match w.env.loaderClose byts with
          | some e => [.print ("can\x27t close pixbuf loader: " ++ e)]
          | none => [] }) := by
  unfold pixbufLoader
  cases h : w.env.loaderClose byts <;>
    simp [StateT.run_bind, ok_bind, pure_eq_ok, getEnv_run, h, Printf_run, run_pure']

theorem downloadFile_run (url : String) (w : World) :
    (downloadFile url).run w = .ok (w.env.fetched url,
      { w with trace := w.trace ++ w.env.fetchEvents url }) := by
  unfold downloadFile Env.fetched Env.fetchEvents
  cases h : w.env.httpGet url with
  | getError e =>
    simp [StateT.run_bind, ok_bind, pure_eq_ok, getEnv_run, h, Printf_run, emit_run, run_pure']
  | response st b re =>
    cases re <;>
      simp [StateT.run_bind, ok_bind, pure_eq_ok, getEnv_run, h, Printf_run, emit_run, run_pure']

theorem main.preload_run (w : World) :
    main.preload.run w = .ok ((),
      { w with
        files := mapSet (mapSet (mapSet (mapSet w.files
          "gotk4.png" (w.env.fetched "https://avatars.githubusercontent.com/u/13782055?s=200&v=4"))
          "gopher-front.png" (w.env.fetched (imageSource ++ "gopher-front.png")))
          "gopher-side.png" (w.env.fetched (imageSource ++ "gopher-side_color.png")))
          "gopher.png" (w.env.fetched (imageSource ++ "gopher.png"))
        trace := w.trace ++
          (w.env.fetchEvents "https://avatars.githubusercontent.com/u/13782055?s=200&v=4" ++
            .filesWrite "gotk4.png" ::
          (w.env.fetchEvents (imageSource ++ "gopher-front.png") ++
            .filesWrite "gopher-front.png" ::
          (w.env.fetchEvents (imageSource ++ "gopher-side_color.png") ++
            .filesWrite "gopher-side.png" ::
          (w.env.fetchEvents (imageSource ++ "gopher.png") ++
            [.filesWrite "gopher.png"])))) }) := by
  unfold main.preload
  simp only [StateT.run_bind, ok_bind, downloadFile_run, filesSet_run, List.append_assoc,
    List.singleton_append, List.cons_append, List.nil_append]

/-! ## Computations that only construct -/

theorem Built.refl (w : World) : Built w w :=
  ⟨rfl, rfl, [], by simp, by simp⟩

theorem Built.trans {w1 w2 w3 : World} (h12 : Built w1 w2) (h23 : Built w2 w3) : Built w1 w3 := by
  obtain ⟨e1, f1, d1, t1, a1⟩ := h12
  obtain ⟨e2, f2, d2, t2, a2⟩ := h23
  refine ⟨e2.trans e1, f2.trans f1, d1 ++ d2, ?_, ?_⟩
  · rw [t2, t1, List.append_assoc]
  · intro e he
    rcases List.mem_append.mp he with h | h
    · exact a1 e h
    · exact a2 e h

theorem Built.mapRangeOk {w w' : World} (h : Built w w') (hw : w.env.mapRangeOk) :
    w'.env.mapRangeOk := by
  rw [h.1]; exact hw

theorem Built.event (w : World) (e : Event) (he : e.byConstructor = true) :
    Built w { w with trace := w.trace ++ [e] } :=
  ⟨rfl, rfl, [e], rfl, by simpa using he⟩

theorem Runs.pure {α : Type} {Q : α → Prop} (x : α) (hx : Q x) : Runs (pure x) Q :=
  fun w _ => ⟨x, w, rfl, hx, Built.refl w⟩

theorem Runs.bind {α β : Type} {m : M α} {f : α → M β} {Q : α → Prop} {Q' : β → Prop}
    (hm : Runs m Q) (hf : ∀ x, Q x → Runs (f x) Q') : Runs (m >>= f) Q' := by
  intro w hw
  obtain ⟨x, w1, h1, q1, b1⟩ := hm w hw
  obtain ⟨y, w2, h2, q2, b2⟩ := hf x q1 w1 (b1.mapRangeOk hw)
  exact ⟨y, w2, by rw [run_bind_ok _ _ _ _ _ h1, h2], q2, b1.trans b2⟩

theorem Runs.weaken {α : Type} {m : M α} {Q Q' : α → Prop}
    (hm : Runs m Q) (h : ∀ x, Q x → Q' x) : Runs m Q' := by
  intro w hw
  obtain ⟨x, w1, h1, q1, b1⟩ := hm w hw
  exact ⟨x, w1, h1, h x q1, b1⟩

theorem Runs.emit (e : Event) (he : e.byConstructor = true) : Runs (emit e) fun _ => True :=
  fun w _ => ⟨(), _, emit_run e w, trivial, Built.event w e he⟩

theorem Runs.Println (args : List String) : Runs (Println args) fun _ => True :=
  Runs.emit _ rfl

theorem Runs.getEnv : Runs getEnv fun env => env.mapRangeOk :=
  fun w hw => ⟨w.env, w, rfl, hw, Built.refl w⟩

theorem Runs.filesGet (k : String) (hk : k ∈ assetNames) : Runs (filesGet k) fun _ => True :=
  fun w _ => ⟨_, _, filesGet_run k w, trivial,
    Built.event w (.filesRead k) (by simpa [Event.byConstructor] using hk)⟩

theorem Runs.pixbufLoader (byts : Bytes) : Runs (pixbufLoader byts) fun _ => True := by
  intro w _
  refine ⟨_, _, pixbufLoader_run byts w, trivial, rfl, rfl, _, rfl, ?_⟩
  intro e he
  cases hc : w.env.loaderClose byts <;> simp [hc] at he
  subst he; rfl

theorem Makes_placeholder : Makes placeholder := Runs.pure _ rfl

theorem Makes_newPicture : Makes newPicture := by
  unfold newPicture
  refine Runs.bind (Runs.filesGet _ (by decide)) fun content _ => ?_
  refine Runs.bind (Runs.pixbufLoader content) fun pix _ => ?_
  exact Runs.pure _ rfl

theorem Makes_newMenuButton : Makes newMenuButton := by
  unfold newMenuButton
  refine Runs.bind Runs.getEnv fun env _ => ?_
  refine Runs.bind (Runs.emit _ rfl) fun _ _ => ?_
  refine Runs.bind (Runs.emit _ rfl) fun _ _ => ?_
  exact Runs.pure _ rfl

theorem insertWithValues.loop_eq (d : List (Int × GValue)) :
    ∀ (keys : List Int) (values : List GValue),
      insertWithValues.loop d keys values = (keys ++ d.map Prod.fst, values ++ d.map Prod.snd) := by
  induction d with
  | nil => intro keys values; simp [insertWithValues.loop]
  | cons kv rest ih =>
    intro keys values
    obtain ⟨k, v⟩ := kv
    simp [insertWithValues.loop, ih]

theorem insertWithValues_run (model : ListStore) (data : List (Int × GValue)) (w : World) :
    (insertWithValues model data).run w =
      .ok (model.InsertWithValues (-1) ((w.env.mapRange data).map Prod.fst)
        ((w.env.mapRange data).map Prod.snd), w) := by
  unfold insertWithValues
  simp only [StateT.run_bind, getEnv_run, ok_bind, insertWithValues.loop_eq, List.nil_append]
  rfl

theorem Runs.insertWithValues (model : ListStore) (data : List (Int × GValue)) :
    Runs (insertWithValues model data) fun _ => True :=
  fun w _ => ⟨_, w, insertWithValues_run model data w, trivial, Built.refl w⟩

theorem Runs.newTreeView_fill (data : List newTreeView.Data) :
    ∀ model : ListStore, Runs (newTreeView.fill data model) fun _ => True := by
  induction data with
  | nil => intro model; exact Runs.pure _ trivial
  | cons d rest ih =>
    intro model
    simp only [newTreeView.fill]
    exact Runs.bind (Runs.insertWithValues _ _) fun m _ => ih m

theorem Makes_newTreeView : Makes newTreeView := by
  unfold newTreeView
  refine Runs.bind (Runs.newTreeView_fill _ _) fun model _ => ?_
  exact Runs.pure _ rfl

theorem Runs.newIconview_fill (data : List newIconview.Data)
    (hd : ∀ d ∈ data, d.icon ∈ assetNames) :
    ∀ model : ListStore, Runs (newIconview.fill data model) fun _ => True := by
  induction data with
  | nil => intro model; exact Runs.pure _ trivial
  | cons d rest ih =>
    intro model
    simp only [newIconview.fill]
    refine Runs.bind (Runs.filesGet _ (hd d (by simp))) fun content _ => ?_
    refine Runs.bind (Runs.emit _ rfl) fun _ _ => ?_
    exact ih (fun d' hd' => hd d' (by simp [hd'])) _

theorem Makes_newIconview : Makes newIconview := by
  unfold newIconview
  refine Runs.bind (Runs.newIconview_fill _ (by decide) _) fun model _ => ?_
  exact Runs.pure _ rfl

theorem perm_pair {α : Type} [DecidableEq α] {l : List α} {x y : α} (h : l.Perm [x, y]) :
    l = [x, y] ∨ l = [y, x] := by
  have hlen : l.length = 2 := by simpa using h.length_eq
  match l, hlen with
  | [p, q], _ =>
    have hp : p ∈ [x, y] := h.subset (by simp)
    have hq : q ∈ [x, y] := h.subset (by simp)
    have hx : x ∈ [p, q] := h.symm.subset (by simp)
    have hy : y ∈ [p, q] := h.symm.subset (by simp)
    simp only [List.mem_cons, List.mem_singleton, List.not_mem_nil, or_false] at hp hq hx hy
    rcases hp with rfl | rfl <;> rcases hq with rfl | rfl
    · rcases hy with rfl | rfl <;> simp
    · simp
    · simp
    · rcases hx with rfl | rfl <;> simp

theorem insertWithValues_pair (model : ListStore) (a b : GValue) (w : World)
    (hw : w.env.mapRangeOk) (ht : model.types.length = 2) :
    (insertWithValues model [(ModelCBRef, a), (ModelCBText, b)]).run w =
      .ok ({ model with rows := model.rows ++ [[some a, some b]] }, w) := by
  rw [insertWithValues_run]
  rcases perm_pair (hw [(ModelCBRef, a), (ModelCBText, b)]) with h | h <;>
    rw [h] <;>
    simp [ListStore.InsertWithValues, ListStore.setCell, ht, ModelCBRef, ModelCBText,
      List.replicate]

theorem newComboBox_run (w : World) (hw : w.env.mapRangeOk) :
    ∃ x : Widgetter, newComboBox.run w = .ok (x, w) ∧ x.isNil = false := by
  have hfill : (newComboBox.fill [["0", "ComboBox"], ["1", "with"], ["2", "choices"]]
      (ListStore.New [.TypeString, .TypeString])).run w =
      .ok ({ types := [.TypeString, .TypeString],
             rows := [[some (.string "0"), some (.string "ComboBox")],
                      [some (.string "1"), some (.string "with")],
                      [some (.string "2"), some (.string "choices")]] }, w) := by
    simp only [newComboBox.fill, List.getElem?_cons_zero, List.getElem?_cons_succ,
      StateT.run_bind, run_pure', ok_bind, ListStore.New]
    rw [insertWithValues_pair ⟨[.TypeString, .TypeString], _⟩ _ _ w hw rfl]
    simp only [ok_bind]
    rw [insertWithValues_pair ⟨[.TypeString, .TypeString], _⟩ _ _ w hw rfl]
    simp only [ok_bind]
    rw [insertWithValues_pair ⟨[.TypeString, .TypeString], _⟩ _ _ w hw rfl]
    rfl
  unfold newComboBox
  rw [run_bind_ok _ _ _ _ _ hfill]
  exact ⟨_, rfl, rfl⟩

theorem Makes_newComboBox : Makes newComboBox := by
  intro w hw
  obtain ⟨x, h, hx⟩ := newComboBox_run w hw
  exact ⟨x, w, h, hx, Built.refl w⟩

/-! ## The widget lists -/

theorem listDisplays_makes : ∀ item ∈ listDisplays, Makes item.Make := by
  intro item h
  simp only [listDisplays, List.mem_cons, List.mem_singleton, List.not_mem_nil, or_false] at h
  rcases h with rfl | rfl | rfl | rfl | rfl | rfl | rfl | rfl | rfl | rfl | rfl | rfl | rfl
    | rfl | rfl | rfl | rfl | rfl | rfl | rfl
  all_goals first
    | exact Runs.pure _ rfl
    | exact Makes_newPicture

theorem listButtons_makes : ∀ item ∈ listButtons, Makes item.Make := by
  intro item h
  simp only [listButtons, List.mem_cons, List.mem_singleton, List.not_mem_nil, or_false] at h
  rcases h with rfl | rfl | rfl | rfl | rfl | rfl | rfl | rfl | rfl | rfl | rfl | rfl | rfl
    | rfl | rfl
  all_goals first
    | exact Runs.pure _ rfl
    | exact Makes_newMenuButton
    | exact Makes_newComboBox

theorem listEntries_makes : ∀ item ∈ listEntries, Makes item.Make := by
  intro item h
  simp only [listEntries, List.mem_cons, List.mem_singleton, List.not_mem_nil, or_false] at h
  rcases h with rfl | rfl | rfl | rfl | rfl
  all_goals exact Runs.pure _ rfl

theorem listContainers_makes : ∀ item ∈ listContainers, Makes item.Make := by
  intro item h
  simp only [listContainers, List.mem_cons, List.mem_singleton, List.not_mem_nil, or_false] at h
  rcases h with rfl | rfl | rfl | rfl | rfl | rfl | rfl | rfl | rfl | rfl | rfl | rfl | rfl
    | rfl | rfl | rfl | rfl | rfl | rfl
  all_goals first
    | exact Runs.pure _ rfl
    | exact Makes_newTreeView
    | exact Makes_newIconview

theorem listWindows_makes : ∀ item ∈ listWindows, Makes item.Make := by
  intro item h
  simp only [listWindows, List.mem_cons, List.mem_singleton, List.not_mem_nil, or_false] at h
  rcases h with rfl | rfl | rfl | rfl | rfl | rfl | rfl | rfl | rfl | rfl | rfl | rfl | rfl
  all_goals exact Runs.pure _ rfl

theorem Runs.mapM_Make (l : List GroupItem) (hl : ∀ item ∈ l, Makes item.Make) :
    Runs (List.mapM GroupItem.Make l : M (List Widgetter))
      fun ws => ws.length = l.length ∧ ∀ x ∈ ws, x.isNil = false := by
  induction l with
  | nil => exact Runs.pure _ (by simp)
  | cons item rest ih =>
    rw [List.mapM_cons]
    refine Runs.bind (hl item (by simp)) fun x hx => ?_
    refine Runs.bind (ih fun i hi => hl i (by simp [hi])) fun xs hxs => ?_
    refine Runs.pure _ ⟨by simp [hxs.1], ?_⟩
    intro y hy
    rcases List.mem_cons.mp hy with rfl | h
    · exact hx
    · exact hxs.2 y h

/-! ## `Group.Widgets` and `main` -/

theorem Group.Widgets_run (l : Group) (title : String) (w : World) :
    (Group.Widgets l title).run w =
      ((List.mapM GroupItem.Make l : M (List Widgetter)).run w).map fun p =>
        (gtknew.Frame title [newContainer (title == "Containers")
          (List.zipWith (fun item x => gtknew.Frame item.Name [x]) l p.1)], p.2) := by
  simp only [Group.Widgets, StateT.run_bind]
  rw [Group.Widgets.loop_run]
  cases (List.mapM GroupItem.Make l : M (List Widgetter)).run w <;> rfl

theorem zipWith_Frame_titles (l : List GroupItem) :
    ∀ ws : List Widgetter, ws.length = l.length →
      (List.zipWith (fun item x => gtknew.Frame item.Name [x]) l ws).map Object.ctorTitle
        = l.map fun item => some item.Name := by
  induction l with
  | nil => intro ws _; simp
  | cons item rest ih =>
    intro ws h
    cases ws with
    | nil => simp at h
    | cons x xs =>
      simp only [List.zipWith_cons_cons, List.map_cons, List.cons.injEq]
      exact ⟨rfl, ih xs (by simpa using h)⟩

theorem Runs.Group_Widgets (l : Group) (title : String) (hl : ∀ item ∈ l, Makes item.Make) :
    Runs (Group.Widgets l title) fun x =>
      ∃ box : Widgetter, x = gtknew.Frame title [box] ∧
        FlowBox.maxChildrenPerLine box = (if title = "Containers" then some 2 else none) ∧
        (FlowBox.children box).map Object.ctorTitle = l.map fun item => some item.Name := by
  intro w hw
  obtain ⟨ws, w', hrun, ⟨hlen, _⟩, hb⟩ := Runs.mapM_Make l hl w hw
  refine ⟨gtknew.Frame title [newContainer (title == "Containers")
    (List.zipWith (fun item x => gtknew.Frame item.Name [x]) l ws)], w', ?_,
    ⟨newContainer (title == "Containers")
      (List.zipWith (fun item x => gtknew.Frame item.Name [x]) l ws), rfl, ?_, ?_⟩, hb⟩
  · rw [Group.Widgets_run, hrun]; rfl
  · rw [newContainer_max]; simp
  · rw [newContainer_children]; exact zipWith_Frame_titles l ws hlen

theorem Runs.sliceGet {α : Type} (s : List α) (i : Nat) (x : α) (h : s[i]? = some x) :
    Runs (sliceGet s i) fun y => y = x := by
  unfold Gallery.sliceGet
  rw [h]
  exact Runs.pure _ rfl

theorem Runs.sliceSet {α : Type} (s : List α) (i : Nat) (x : α) (h : i < s.length) :
    Runs (sliceSet s i x) fun y => y = s.set i x := by
  unfold Gallery.sliceSet
  rw [if_pos h]
  exact Runs.pure _ rfl

theorem NewCustomWidget_run (w : World) :
    ∃ cw : CustomWidget,
      NewCustomWidget.run w =
        .ok (cw, { w with trace := w.trace ++ [.print "custom widget switched to false\n"] }) ∧
      cw.Active = true ∧
      Label.text cw.labelState = "Active" ∧
      Image.iconName cw.img = some "go-up" ∧
      cw.sw.connected "state-set" (.method "box.switchToggled") = true ∧
      cw.sw.isNil = false ∧ cw.labelState.isNil = false ∧ cw.img.isNil = false :=
  ⟨_, rfl, rfl, rfl, rfl, rfl, rfl, rfl, rfl⟩

theorem Runs.NewCustomWidgetStarted : Runs NewCustomWidgetStarted fun _ => True := by
  intro w _
  obtain ⟨cw, h, _⟩ := NewCustomWidget_run w
  refine ⟨cw, { w with trace := (w.trace ++ [.print "custom widget switched to false\n"]) ++
    [.go "w.Loop"] }, ?_, trivial, ?_⟩
  · unfold Gallery.NewCustomWidgetStarted
    rw [run_bind_ok _ _ _ _ _ h, run_bind_ok _ _ _ _ _ (emit_run _ _)]
    rfl
  · refine ⟨rfl, rfl, [.print "custom widget switched to false\n", .go "w.Loop"], ?_, ?_⟩
    · simp
    · intro e he
      simp at he
      rcases he with rfl | rfl <;> rfl

theorem Runs.main_loop :
    Runs (main.loop main.titles main.groups 0 (List.replicate 6 Object.nil))
      fun ws => main.framed ws Object.nil := by
  simp only [main.groups, main.loop]
  refine Runs.bind (Runs.sliceGet _ 0 "Displays" rfl) fun t ht => ?_
  subst ht
  refine Runs.bind (Runs.Group_Widgets listDisplays "Displays" listDisplays_makes)
    fun x0 hx0 => ?_
  obtain ⟨b0, rfl, m0, c0⟩ := hx0
  refine Runs.bind (Runs.sliceSet _ 0 _ (by decide)) fun s0 hs0 => ?_
  subst hs0
  refine Runs.bind (Runs.sliceGet _ 1 "Buttons" rfl) fun t ht => ?_
  subst ht
  refine Runs.bind (Runs.Group_Widgets listButtons "Buttons" listButtons_makes)
    fun x1 hx1 => ?_
  obtain ⟨b1, rfl, m1, c1⟩ := hx1
  refine Runs.bind (Runs.sliceSet _ 1 _ (by simp)) fun s1 hs1 => ?_
  subst hs1
  refine Runs.bind (Runs.sliceGet _ 2 "Entries" rfl) fun t ht => ?_
  subst ht
  refine Runs.bind (Runs.Group_Widgets listEntries "Entries" listEntries_makes)
    fun x2 hx2 => ?_
  obtain ⟨b2, rfl, m2, c2⟩ := hx2
  refine Runs.bind (Runs.sliceSet _ 2 _ (by simp)) fun s2 hs2 => ?_
  subst hs2
  refine Runs.bind (Runs.sliceGet _ 3 "Containers" rfl) fun t ht => ?_
  subst ht
  refine Runs.bind (Runs.Group_Widgets listContainers "Containers" listContainers_makes)
    fun x3 hx3 => ?_
  obtain ⟨b3, rfl, m3, c3⟩ := hx3
  refine Runs.bind (Runs.sliceSet _ 3 _ (by simp)) fun s3 hs3 => ?_
  subst hs3
  refine Runs.bind (Runs.sliceGet _ 4 "Windows" rfl) fun t ht => ?_
  subst ht
  refine Runs.bind (Runs.Group_Widgets listWindows "Windows" listWindows_makes)
    fun x4 hx4 => ?_
  obtain ⟨b4, rfl, m4, c4⟩ := hx4
  refine Runs.bind (Runs.sliceSet _ 4 _ (by simp)) fun s4 hs4 => ?_
  subst hs4
  exact Runs.pure _ ⟨b0, b1, b2, b3, b4, rfl, c0, c1, c2, c3, c4, by
    simp only [List.map_cons, List.map_nil, m0, m1, m2, m3, m4]; rfl⟩

theorem Runs.main_widgets :
    Runs main.widgets fun ws => ∃ cw : CustomWidget, main.framed ws cw.toWidgetter := by
  unfold main.widgets
  refine Runs.bind Runs.main_loop fun ws hws => ?_
  obtain ⟨b0, b1, b2, b3, b4, rfl, c0, c1, c2, c3, c4, hm⟩ := hws
  refine Runs.bind Runs.NewCustomWidgetStarted fun cw _ => ?_
  refine Runs.bind (Runs.sliceSet _ 5 _ (by simp)) fun s hs => ?_
  subst hs
  exact Runs.pure _ ⟨cw, b0, b1, b2, b3, b4, rfl, c0, c1, c2, c3, c4, hm⟩

/-! ## Traces -/

theorem writesOf_append (a b : List Event) : writesOf (a ++ b) = writesOf a ++ writesOf b := by
  simp [writesOf, List.filterMap_append]

theorem readsOf_append (a b : List Event) : readsOf (a ++ b) = readsOf a ++ readsOf b := by
  simp [readsOf, List.filterMap_append]

theorem writesOf_cons_write (k : String) (t : List Event) :
    writesOf (.filesWrite k :: t) = k :: writesOf t := rfl

theorem readsOf_cons_write (k : String) (t : List Event) :
    readsOf (.filesWrite k :: t) = readsOf t := rfl

theorem writesOf_fetchEvents (env : Env) (url : String) : writesOf (env.fetchEvents url) = [] := by
  unfold Env.fetchEvents
  cases h : env.httpGet url with
  | getError e => rfl
  | response st b re => cases re <;> rfl

theorem readsOf_fetchEvents (env : Env) (url : String) : readsOf (env.fetchEvents url) = [] := by
  unfold Env.fetchEvents
  cases h : env.httpGet url with
  | getError e => rfl
  | response st b re => cases re <;> rfl

theorem writesOf_byConstructor (δ : List Event) (h : ∀ e ∈ δ, e.byConstructor = true) :
    writesOf δ = [] := by
  induction δ with
  | nil => rfl
  | cons e rest ih =>
    have he := h e (by simp)
    have hr := ih fun e' he' => h e' (by simp [he'])
    cases e <;> simp_all [writesOf, Event.byConstructor]

theorem readsOf_byConstructor (δ : List Event) (h : ∀ e ∈ δ, e.byConstructor = true) :
    ∀ k ∈ readsOf δ, k ∈ assetNames := by
  induction δ with
  | nil => intro k hk; simp [readsOf] at hk
  | cons e rest ih =>
    have he := h e (by simp)
    have hr := ih fun e' he' => h e' (by simp [he'])
    intro k hk
    cases e with
    | filesRead k' =>
      simp only [readsOf, List.filterMap_cons, List.mem_cons] at hk
      rcases hk with rfl | hk
      · simpa [Event.byConstructor] using he
      · exact hr k hk
    | _ => exact hr k (by simpa [readsOf] using hk)

theorem Env.fetched_of_fails (env : Env) (url : String) (h : env.fails url) :
    env.fetched url = none := by
  unfold Env.fetched
  rcases h with ⟨e, h⟩ | ⟨st, b, e, h⟩ <;> rw [h]

theorem main_run_of (w w1 : World) (h1 : main.preload.run w = .ok ((), w1))
    (hw1 : w1.env.mapRangeOk) :
    ∃ (w2 : World) (ws : List Widgetter) (cw : CustomWidget),
      main.widgets.run w1 = .ok (ws, w2) ∧
      main.run w = .ok (gtknew.ScrolledWindow (gtknew.VBox 10 ws), w2) ∧
      main.framed ws cw.toWidgetter ∧ Built w1 w2 := by
  obtain ⟨ws, w2, h2, ⟨cw, hf⟩, hb⟩ := Runs.main_widgets w1 hw1
  refine ⟨w2, ws, cw, h2, ?_, hf, hb⟩
  unfold Gallery.main
  rw [run_bind_ok _ _ _ _ _ h1, run_bind_ok _ _ _ _ _ h2]
  rfl

theorem main_run (w : World) (hw : w.env.mapRangeOk) :
    ∃ (w1 w2 : World) (ws : List Widgetter) (cw : CustomWidget),
      main.preload.run w = .ok ((), w1) ∧
      main.widgets.run w1 = .ok (ws, w2) ∧
      main.run w = .ok (gtknew.ScrolledWindow (gtknew.VBox 10 ws), w2) ∧
      main.framed ws cw.toWidgetter ∧ Built w1 w2 := by
  obtain ⟨w2, ws, cw, h⟩ := main_run_of w _ (main.preload_run w) hw
  exact ⟨_, w2, ws, cw, main.preload_run w, h⟩

theorem newPicture_run (w : World) :
    newPicture.run w = .ok (
      new "gtk.NewPictureForPixbuf" [.pixbuf (w.env.loaderPixbuf (mapGet w.files "gotk4.png"))],
      { w with trace := w.trace ++ (.filesRead "gotk4.png" ::
          match w.env.loaderClose (mapGet w.files "gotk4.png") with
          | some e => [.print ("can\x27t close pixbuf loader: " ++ e)]
          | none => []) }) := by
  unfold newPicture
  simp only [StateT.run_bind, filesGet_run, ok_bind, pixbufLoader_run, run_pure',
    List.append_assoc, List.singleton_append]

theorem newIconview_fill_run (w : World) :
    (newIconview.fill newIconview.data
        (ListStore.New [.TypeInt, .TypeString, .TypeString, .GdkPixbuf])).run w =
      .ok ({ types := [.TypeInt, .TypeString, .TypeString, .GdkPixbuf],
             rows := [
              [some (.int 0), some (.string "<big>Iconview</big>"), some (.string "tooltip 1"), none],
              [some (.int 1), some (.string "with"), some (.string "tooltip 2"), none],
              [some (.int 2), some (.string "icons"), some (.string "tooltip 3"), none],
              [some (.int 3), some (.string "and <b>tooltips</b>"), some (.string "tooltip 4"),
                none]] },
        { w with trace := w.trace ++ [
            .filesRead "gotk4.png",
            .idleAdd (.iconviewIcon 0 (mapGet w.files "gotk4.png")),
            .filesRead "gopher-front.png",
            .idleAdd (.iconviewIcon 1 (mapGet w.files "gopher-front.png")),
            .filesRead "gopher-side.png",
            .idleAdd (.iconviewIcon 2 (mapGet w.files "gopher-side.png")),
            .filesRead "gopher.png",
            .idleAdd (.iconviewIcon 3 (mapGet w.files "gopher.png"))] }) := by
  simp only [newIconview.fill, newIconview.data, StateT.run_bind, filesGet_run, emit_run, ok_bind,
    run_pure', List.append_assoc, List.singleton_append, List.cons_append, List.nil_append]
  rfl

/-! ## The custom widget -/

theorem Switch.Active_SetActive (sw : Object) (h : sw.isNil = false) (b : Bool) :
    Switch.Active (sw.call "SetActive" [.bool b]) = b := by
  cases sw with
  | nil => simp [Object.isNil] at h
  | mk c args cs => simp [Switch.Active, Object.call, Object.calls, List.foldl_append]

theorem Object.connected_SetActive (sw : Object) (b : Bool) (s : String) (g : Handler) :
    (sw.call "SetActive" [.bool b]).connected s g = sw.connected s g := by
  cases sw with
  | nil => rfl
  | mk c args cs => simp [Object.connected, Object.call, Object.calls, List.any_append]

theorem Label.text_SetLabel (l : Object) (h : l.isNil = false) (s : String) :
    Label.text (l.call "SetLabel" [.str s]) = s := by
  cases l with
  | nil => simp [Object.isNil] at h
  | mk c args cs => simp [Label.text, Object.call, List.foldl_append]

theorem Image.iconName_SetFromIconName (img : Object) (h : img.isNil = false) (s : String) :
    Image.iconName (img.call "SetFromIconName" [.str s]) = some s := by
  cases img with
  | nil => simp [Object.isNil] at h
  | mk c args cs => simp [Image.iconName, Object.call, Object.calls, List.foldl_append]

theorem CustomWidget.switchToggled_run (cw : CustomWidget) (w : World) :
    cw.switchToggled.run w = .ok (
      { cw with
        img := cw.img.call "SetFromIconName"
          [.str (boolMapGet [(false, "go-up"), (true, "go-down")] (!cw.Active))]
        labelState := cw.labelState.call "SetLabel"
          [.str (boolMapGet [(false, "Active"), (true, "Inactive")] (!cw.Active))] },
      { w with trace := w.trace ++
          [.print (" ".intercalate ["custom widget switched to", fmtBool (!cw.Active)] ++ "\n")] }) :=
  rfl

theorem CustomWidget.toggle_settled (cw : CustomWidget) (h : cw.Settled) (w : World) :
    ∃ (cw' : CustomWidget) (w' : World),
      cw.toggle.run w = .ok (cw', w') ∧ cw'.Settled ∧ cw'.Active = !cw.Active := by
  obtain ⟨hsw, hl, hc, ht⟩ := h
  have hne : ¬ Switch.Active cw.sw = !cw.Active := by
    unfold CustomWidget.Active; cases Switch.Active cw.sw <;> simp
  have hact : Switch.Active (cw.sw.call "SetActive" [.bool !Switch.Active cw.sw])
      = !Switch.Active cw.sw := Switch.Active_SetActive _ hsw _
  have hrun : cw.toggle.run w =
      ({ cw with sw := cw.sw.call "SetActive" [.bool !cw.Active] } : CustomWidget).switchToggled.run
        w := by
    unfold CustomWidget.toggle CustomWidget.setSwitch
    simp only [hne, if_false, Object.connected_SetActive, hc, if_true]
  rw [CustomWidget.switchToggled_run] at hrun
  refine ⟨_, _, hrun, ⟨?_, ?_, ?_, ?_⟩, ?_⟩
  · simp only [Object.isNil_call]; exact hsw
  · simp only [Object.isNil_call]; exact hl
  · simp only [Object.connected_SetActive]; exact hc
  · simp only [CustomWidget.Active, hact, Label.text_SetLabel _ hl]
    cases Switch.Active cw.sw <;> rfl
  · simp only [CustomWidget.Active, hact]

theorem CustomWidget.toggles_settled (n : Nat) :
    ∀ (cw : CustomWidget), cw.Settled → ∀ w : World,
      ∃ (cw' : CustomWidget) (w' : World),
        (CustomWidget.toggles n cw).run w = .ok (cw', w') ∧ cw'.Settled ∧
          cw'.Active = (if n % 2 = 0 then cw.Active else !cw.Active) := by
  induction n with
  | zero => intro cw h w; exact ⟨cw, w, rfl, h, by simp⟩
  | succ n ih =>
    intro cw h w
    obtain ⟨cw1, w1, h1, s1, a1⟩ := CustomWidget.toggle_settled cw h w
    obtain ⟨cw2, w2, h2, s2, a2⟩ := ih cw1 s1 w1
    refine ⟨cw2, w2, ?_, s2, ?_⟩
    · simp only [CustomWidget.toggles]
      rw [run_bind_ok _ _ _ _ _ h1, h2]
    · rw [a2, a1]
      rcases Nat.mod_two_eq_zero_or_one n with h0 | h0
      · have : (n + 1) % 2 = 1 := by omega
        simp [h0, this]
      · have : (n + 1) % 2 = 0 := by omega
        simp [h0, this]

theorem NewCustomWidget_settled (w w' : World) (cw : CustomWidget)
    (h : NewCustomWidget.run w = .ok (cw, w')) : cw.Settled := by
  obtain ⟨cw0, h0, a0, t0, _, c0, n0, n1, _⟩ := NewCustomWidget_run w
  rw [h0] at h
  cases h
  exact ⟨n0, n1, c0, by rw [t0, a0]; rfl⟩

/-! ## The icon view -/

theorem newIconview_run (w : World) :
    ∃ iv : Object,
      newIconview.run w = .ok (gtknew.VBox boxMargin [iv],
        { w with trace := w.trace ++ [
            .filesRead "gotk4.png",
            .idleAdd (.iconviewIcon 0 (mapGet w.files "gotk4.png")),
            .filesRead "gopher-front.png",
            .idleAdd (.iconviewIcon 1 (mapGet w.files "gopher-front.png")),
            .filesRead "gopher-side.png",
            .idleAdd (.iconviewIcon 2 (mapGet w.files "gopher-side.png")),
            .filesRead "gopher.png",
            .idleAdd (.iconviewIcon 3 (mapGet w.files "gopher.png"))] }) ∧
      iv.ctorModel = some
        { types := [.TypeInt, .TypeString, .TypeString, .GdkPixbuf],
          rows := [
            [some (.int 0), some (.string "<big>Iconview</big>"), some (.string "tooltip 1"), none],
            [some (.int 1), some (.string "with"), some (.string "tooltip 2"), none],
            [some (.int 2), some (.string "icons"), some (.string "tooltip 3"), none],
            [some (.int 3), some (.string "and <b>tooltips</b>"), some (.string "tooltip 4"),
              none]] } := by
  unfold newIconview
  rw [run_bind_ok _ _ _ _ _ (newIconview_fill_run w)]
  exact ⟨_, rfl, rfl⟩

theorem newIconview.func1_run (model : ListStore) (iter : Nat) (content : Bytes) (w : World) :
    (newIconview.func1 model iter content).run w = .ok (
      (match w.env.loaderPixbuf content with
       | some p => model.SetValue iter ModelCBIcon (.pixbuf p)
       | none => model),
      { w with trace := w.trace ++
          match w.env.loaderClose content with
          | some e => [.print ("can\x27t close pixbuf loader: " ++ e)]
          | none => [] }) := by
  unfold newIconview.func1
  rw [run_bind_ok _ _ _ _ _ (pixbufLoader_run content w)]
  cases w.env.loaderPixbuf content <;> rfl

theorem newIconview.idle_run (w : World) (c0 c1 c2 c3 : Bytes) :
    ∃ (final : ListStore) (w' : World),
      (newIconview.idle
        [.iconviewIcon 0 c0, .iconviewIcon 1 c1, .iconviewIcon 2 c2, .iconviewIcon 3 c3]
        { types := [.TypeInt, .TypeString, .TypeString, .GdkPixbuf],
          rows := [
            [some (.int 0), some (.string "<big>Iconview</big>"), some (.string "tooltip 1"), none],
            [some (.int 1), some (.string "with"), some (.string "tooltip 2"), none],
            [some (.int 2), some (.string "icons"), some (.string "tooltip 3"), none],
            [some (.int 3), some (.string "and <b>tooltips</b>"), some (.string "tooltip 4"),
              none]] }).run w = .ok (final, w') ∧
      final.rows = [
        [some (.int 0), some (.string "<big>Iconview</big>"), some (.string "tooltip 1"),
          (w.env.loaderPixbuf c0).map .pixbuf],
        [some (.int 1), some (.string "with"), some (.string "tooltip 2"),
          (w.env.loaderPixbuf c1).map .pixbuf],
        [some (.int 2), some (.string "icons"), some (.string "tooltip 3"),
          (w.env.loaderPixbuf c2).map .pixbuf],
        [some (.int 3), some (.string "and <b>tooltips</b>"), some (.string "tooltip 4"),
          (w.env.loaderPixbuf c3).map .pixbuf]] := by
  simp only [newIconview.idle, StateT.run_bind, newIconview.func1_run, ok_bind, run_pure']
  refine ⟨_, _, rfl, ?_⟩
  cases w.env.loaderPixbuf c0 <;> cases w.env.loaderPixbuf c1 <;>
    cases w.env.loaderPixbuf c2 <;> cases w.env.loaderPixbuf c3 <;> rfl

/-! ## The claims -/

theorem ctorChildren_VBox (spacing : Int) (ws : List Widgetter) :
    (gtknew.VBox spacing ws).ctorChildren = ws := by
  simp only [gtknew.VBox, new, Object.ctorChildren, List.filterMap_cons]
  induction ws with
  | nil => rfl
  | cons x xs ih => simp only [List.map_cons, List.filterMap_cons, ih]

theorem main.framed_live {ws : List Widgetter} {cw : CustomWidget}
    (h : main.framed ws cw.toWidgetter) : ws.length = 6 ∧ ∀ x ∈ ws, x.isNil = false := by
  obtain ⟨b0, b1, b2, b3, b4, rfl, _⟩ := h
  refine ⟨rfl, ?_⟩
  intro x hx
  simp only [List.mem_cons, List.mem_singleton, List.not_mem_nil, or_false] at hx
  rcases hx with rfl | rfl | rfl | rfl | rfl | rfl <;> rfl

/-- Claim C1: for every group `l` and every title, whenever the makers of `l`,
each called once and in order, return the widgets `ws`, `Group.Widgets`
returns a frame around a flow box whose children are, in order, exactly
`len(l)` frames, the `i`-th titled `l[i].Name` and wrapping `ws[i]`: nothing
is sorted, dropped, duplicated or reordered. -/
theorem Group_Widgets_frames_in_order (l : Group) (title : String) (w w' : World)
    (ws : List Widgetter)
    (h : (List.mapM GroupItem.Make l : M (List Widgetter)).run w = .ok (ws, w')) :
    ∃ box : Widgetter,
      (Group.Widgets l title).run w = .ok (gtknew.Frame title [box], w') ∧
      FlowBox.children box = List.zipWith (fun item x => gtknew.Frame item.Name [x]) l ws ∧
      (FlowBox.children box).length = l.length ∧
      ∀ (i : Nat) (hi : i < l.length), ∃ x : Widgetter,
        ws[i]? = some x ∧
        (FlowBox.children box)[i]? = some (gtknew.Frame (l.get ⟨i, hi⟩).Name [x]) := by
  have hlen := mapM_Make_length l w w' ws h
  refine ⟨newContainer (title == "Containers")
    (List.zipWith (fun item x => gtknew.Frame item.Name [x]) l ws), ?_, ?_, ?_, ?_⟩
  · rw [Group.Widgets_run, h]; rfl
  · exact newContainer_children _ _
  · rw [newContainer_children]; simp [hlen]
  · intro i hi
    have hi2 : i < ws.length := by omega
    refine ⟨ws.get ⟨i, hi2⟩, ?_, ?_⟩
    · simp
    · rw [newContainer_children]
      simp [List.getElem?_zipWith, List.getElem?_eq_getElem hi, List.getElem?_eq_getElem hi2]

/-- Witness of C1: a group of two makers, one of which returns a nil widget. -/
theorem Group_Widgets_frames_in_order_witness :
    ∃ box : Widgetter,
      (Group.Widgets [⟨"A", pure (gtk.NewLabel "a")⟩, ⟨"B", pure Object.nil⟩] "T").run
          (World.init Env.offline)
        = .ok (gtknew.Frame "T" [box], World.init Env.offline) ∧
      FlowBox.children box = [gtknew.Frame "A" [gtk.NewLabel "a"], gtknew.Frame "B" [Object.nil]] :=
  (Group_Widgets_frames_in_order [⟨"A", pure (gtk.NewLabel "a")⟩, ⟨"B", pure Object.nil⟩] "T"
    (World.init Env.offline) (World.init Env.offline)
    [gtk.NewLabel "a", Object.nil] rfl).imp fun _ hb => ⟨hb.1, hb.2.1⟩

/-- Claim C2: for every group and every title, the flow box built by
`Group.Widgets` has its maximum of children per line set to 2 if and only if
the title is exactly "Containers", and no limit is set for any other title;
among the titles of `main`, "Containers" is the fourth and only the fourth,
the one paired with `listContainers`. -/
theorem Group_Widgets_two_per_line_iff_Containers (l : Group) (title : String) (w w' : World)
    (ws : List Widgetter)
    (h : (List.mapM GroupItem.Make l : M (List Widgetter)).run w = .ok (ws, w')) :
    (∃ box : Widgetter,
      (Group.Widgets l title).run w = .ok (gtknew.Frame title [box], w') ∧
      (FlowBox.maxChildrenPerLine box = some 2 ↔ title = "Containers") ∧
      (title ≠ "Containers" → FlowBox.maxChildrenPerLine box = none)) ∧
    main.titles[3]? = some "Containers" ∧
    main.groups[3]? = some listContainers ∧
    ∀ i : Nat, main.titles[i]? = some "Containers" → i = 3 := by
  refine ⟨⟨newContainer (title == "Containers")
    (List.zipWith (fun item x => gtknew.Frame item.Name [x]) l ws), ?_, ?_, ?_⟩, rfl, rfl, ?_⟩
  · rw [Group.Widgets_run, h]; rfl
  · rw [newContainer_max]
    by_cases ht : title = "Containers" <;> simp [ht]
  · intro ht
    rw [newContainer_max]
    simp [ht]
  · intro i hi
    match i, hi with
    | 0, hi => simp [main.titles] at hi
    | 1, hi => simp [main.titles] at hi
    | 2, hi => simp [main.titles] at hi
    | 3, _ => rfl
    | 4, hi => simp [main.titles] at hi
    | n + 5, hi => simp [main.titles] at hi

/-- Witness of C2: the table of entries under the title "Entries" and under
the title "Containers". -/
theorem Group_Widgets_two_per_line_iff_Containers_witness :
    (∃ box : Widgetter,
      (Group.Widgets [⟨"A", pure (gtk.NewLabel "a")⟩] "Containers").run (World.init Env.offline)
        = .ok (gtknew.Frame "Containers" [box], World.init Env.offline) ∧
      FlowBox.maxChildrenPerLine box = some 2) ∧
    (∃ box : Widgetter,
      (Group.Widgets [⟨"A", pure (gtk.NewLabel "a")⟩] "containers").run (World.init Env.offline)
        = .ok (gtknew.Frame "containers" [box], World.init Env.offline) ∧
      FlowBox.maxChildrenPerLine box = none) :=
  ⟨(Group_Widgets_two_per_line_iff_Containers [⟨"A", pure (gtk.NewLabel "a")⟩] "Containers"
      (World.init Env.offline) (World.init Env.offline) [gtk.NewLabel "a"] rfl).1.imp
      fun _ hb => ⟨hb.1, hb.2.1.mpr rfl⟩,
   (Group_Widgets_two_per_line_iff_Containers [⟨"A", pure (gtk.NewLabel "a")⟩] "containers"
      (World.init Env.offline) (World.init Env.offline) [gtk.NewLabel "a"] rfl).1.imp
      fun _ hb => ⟨hb.1, hb.2.2 (by decide)⟩⟩

/-- Claim C3: in every world, `main` does not panic (every index into `titles`
and into the six-element slice `widgets` is in range) and returns a scrolled
window around a vertical box of spacing 10 whose children are, in order, the
frames "Displays", "Buttons", "Entries", "Containers", "Windows", each built
from its own table (`main.framed`), followed by the custom widget; none of
the six slots is left nil. -/
theorem main_stacks_five_frames_and_custom_widget (w : World) (hw : w.env.mapRangeOk) :
    ∃ (ws : List Widgetter) (cw : CustomWidget) (w' : World),
      main.run w = .ok (gtknew.ScrolledWindow (gtknew.VBox 10 ws), w') ∧
      (gtknew.VBox 10 ws).ctorSpacing = some 10 ∧
      (gtknew.VBox 10 ws).ctorChildren = ws ∧
      main.framed ws cw.toWidgetter ∧
      ws.length = 6 ∧ (∀ x ∈ ws, x.isNil = false) ∧
      main.titles.length = 5 ∧ main.groups.length = 5 := by
  obtain ⟨w1, w2, ws, cw, _, _, h, hf, _⟩ := main_run w hw
  exact ⟨ws, cw, w2, h, rfl, ctorChildren_VBox 10 ws, hf, (main.framed_live hf).1,
    (main.framed_live hf).2, rfl, rfl⟩

/-- Witness of C3: `main` with the network down. -/
theorem main_stacks_five_frames_and_custom_widget_witness :
    ∃ (ws : List Widgetter) (w' : World),
      main.run (World.init Env.offline) = .ok (gtknew.ScrolledWindow (gtknew.VBox 10 ws), w') ∧
      ws.length = 6 ∧ (∀ x ∈ ws, x.isNil = false) :=
  (main_stacks_five_frames_and_custom_widget (World.init Env.offline)
    (fun d => List.Perm.refl d)).elim
    fun ws h => h.elim fun _ h => h.elim fun w' h => ⟨ws, w', h.1, h.2.2.2.2.1, h.2.2.2.2.2.1⟩

/-- Claim C4: every entry of the five tables has a maker that, in every world
(whatever `files` holds, so also when every lookup gives the nil slice),
does not panic and returns a widget that is not nil; the placeholder label
"TODO" is such a widget. -/
theorem catalog_makers_return_live_widgets (item : GroupItem)
    (hitem : item ∈ listDisplays ++ listButtons ++ listEntries ++ listContainers ++ listWindows)
    (w : World) (hw : w.env.mapRangeOk) :
    (∃ (x : Widgetter) (w' : World), item.Make.run w = .ok (x, w') ∧ x.isNil = false) ∧
    placeholder.run w = .ok (gtk.NewLabel "TODO", w) ∧ (gtk.NewLabel "TODO").isNil = false := by
  refine ⟨?_, rfl, rfl⟩
  have hm : Makes item.Make := by
    simp only [List.mem_append] at hitem
    rcases hitem with (((h | h) | h) | h) | h
    · exact listDisplays_makes item h
    · exact listButtons_makes item h
    · exact listEntries_makes item h
    · exact listContainers_makes item h
    · exact listWindows_makes item h
  obtain ⟨x, w', h, hx, _⟩ := hm w hw
  exact ⟨x, w', h, hx⟩

/-- Witness of C4: the maker of "Picture" when `files` is empty, so that the
lookup of "gotk4.png" gives the nil slice and nothing decodes. -/
theorem catalog_makers_return_live_widgets_witness :
    mapGet (World.init Env.offline).files "gotk4.png" = none ∧
    ∃ (x : Widgetter) (w' : World),
      newPicture.run (World.init Env.offline) = .ok (x, w') ∧ x.isNil = false :=
  ⟨rfl, (catalog_makers_return_live_widgets ⟨"Picture", newPicture⟩
    (by simp [listDisplays]) (World.init Env.offline) (fun d => List.Perm.refl d)).1⟩

theorem main.preload_init (env : Env) :
    ∃ w1 : World,
      main.preload.run (World.init env) = .ok ((), w1) ∧
      w1.env = env ∧
      w1.files = [
        ("gotk4.png", env.fetched "https://avatars.githubusercontent.com/u/13782055?s=200&v=4"),
        ("gopher-front.png", env.fetched (imageSource ++ "gopher-front.png")),
        ("gopher-side.png", env.fetched (imageSource ++ "gopher-side_color.png")),
        ("gopher.png", env.fetched (imageSource ++ "gopher.png"))] ∧
      writesOf w1.trace = assetNames ∧ readsOf w1.trace = [] := by
  refine ⟨_, main.preload_run (World.init env), rfl, rfl, ?_, ?_⟩
  · simp only [World.init, List.nil_append, writesOf_append, writesOf_fetchEvents,
      writesOf_cons_write, List.nil_append]
    rfl
  · simp only [World.init, List.nil_append, readsOf_append, readsOf_fetchEvents,
      readsOf_cons_write, List.nil_append]
    rfl

/-- Claim C5: `main` writes the four asset names into `files` before anything
is looked up, and after that no constructor writes `files` and every key a
constructor looks up is one of the keys written: `newPicture` looks up
"gotk4.png" and `newIconview` looks up the four asset names, and nothing
else is looked up during the whole of `main`. -/
theorem asset_keys_written_before_any_lookup (env : Env) (henv : env.mapRangeOk) :
    (∃ (w1 w2 : World) (r : Widgetter) (δ : List Event),
      main.preload.run (World.init env) = .ok ((), w1) ∧
      writesOf w1.trace = ["gotk4.png", "gopher-front.png", "gopher-side.png", "gopher.png"] ∧
      readsOf w1.trace = [] ∧
      w1.files.map Prod.fst = ["gotk4.png", "gopher-front.png", "gopher-side.png", "gopher.png"] ∧
      main.run (World.init env) = .ok (r, w2) ∧
      w2.trace = w1.trace ++ δ ∧ w2.files = w1.files ∧ writesOf δ = [] ∧
      ∀ k ∈ readsOf δ, k ∈ writesOf w1.trace ∧ k ∈ w2.files.map Prod.fst) ∧
    (∀ w : World, ∃ (x : Widgetter) (w' : World) (δ : List Event),
      newPicture.run w = .ok (x, w') ∧ w'.trace = w.trace ++ δ ∧ readsOf δ = ["gotk4.png"]) ∧
    (∀ w : World, ∃ (x : Widgetter) (w' : World) (δ : List Event),
      newIconview.run w = .ok (x, w') ∧ w'.trace = w.trace ++ δ ∧
      readsOf δ = ["gotk4.png", "gopher-front.png", "gopher-side.png", "gopher.png"]) := by
  refine ⟨?_, ?_, ?_⟩
  · obtain ⟨w1, h1, e1, f1, hw, hr⟩ := main.preload_init env
    obtain ⟨w2, ws, cw, _, hmain, _, hb⟩ := main_run_of _ w1 h1 (by rw [e1]; exact henv)
    obtain ⟨_, hfiles, δ, hδ, hall⟩ := hb
    refine ⟨w1, w2, _, δ, h1, hw, hr, by rw [f1]; rfl, hmain, hδ, hfiles,
      writesOf_byConstructor δ hall, ?_⟩
    intro k hk
    have hk' := readsOf_byConstructor δ hall k hk
    exact ⟨by rw [hw]; exact hk', by rw [hfiles, f1]; exact hk'⟩
  · intro w
    refine ⟨_, _, _, newPicture_run w, rfl, ?_⟩
    cases w.env.loaderClose (mapGet w.files "gotk4.png") <;> rfl
  · intro w
    obtain ⟨iv, h, _⟩ := newIconview_run w
    exact ⟨_, _, _, h, rfl, rfl⟩

/-- Witness of C5: `main` with the network down. -/
theorem asset_keys_written_before_any_lookup_witness :
    ∃ (w1 w2 : World) (r : Widgetter) (δ : List Event),
      main.preload.run (World.init Env.offline) = .ok ((), w1) ∧
      main.run (World.init Env.offline) = .ok (r, w2) ∧
      w2.trace = w1.trace ++ δ ∧
      ∀ k ∈ readsOf δ, k ∈ writesOf w1.trace :=
  (asset_keys_written_before_any_lookup Env.offline (fun d => List.Perm.refl d)).1.elim
    fun w1 h => h.elim fun w2 h => h.elim fun r h => h.elim fun δ h =>
      ⟨w1, w2, r, δ, h.1, h.2.2.2.2.1, h.2.2.2.2.2.1, fun k hk => (h.2.2.2.2.2.2.2.2 k hk).1⟩

/-- Claim C6: when the GET fails, or the read of the body fails, `downloadFile`
prints a message and returns the nil slice, and does not panic; whichever of
the four startup downloads fail, `main` does not panic, stores an entry
under each of the four keys (the nil slice for a failed download) and
returns the box with all six widgets, none of them nil. -/
theorem failed_downloads_do_not_stop_main (env : Env) (henv : env.mapRangeOk) :
    (∀ (url : String) (w : World) (e : String), w.env.httpGet url = .getError e →
      (downloadFile url).run w = .ok (none,
        { w with trace := w.trace ++
          [.httpGet url, .print ("can\x27t find icon url (" ++ url ++ "): " ++ e)] })) ∧
    (∀ (url : String) (w : World) (st : Nat) (b : List Nat) (e : String),
      w.env.httpGet url = .response st b (some e) →
      (downloadFile url).run w = .ok (none,
        { w with trace := w.trace ++
          [.httpGet url, .bodyClose url,
           .print ("can\x27t download icon (" ++ url ++ "): " ++ e)] })) ∧
    ∃ (ws : List Widgetter) (w' : World),
      main.run (World.init env) = .ok (gtknew.ScrolledWindow (gtknew.VBox 10 ws), w') ∧
      w'.files.map Prod.fst = ["gotk4.png", "gopher-front.png", "gopher-side.png", "gopher.png"] ∧
      (∀ p ∈ assetNames.zip startupURLs, env.fails p.2 → mapGet w'.files p.1 = none) ∧
      ws.length = 6 ∧ ∀ x ∈ ws, x.isNil = false := by
  refine ⟨?_, ?_, ?_⟩
  · intro url w e h
    rw [downloadFile_run]
    simp only [Env.fetched, Env.fetchEvents, h]
  · intro url w st b e h
    rw [downloadFile_run]
    simp only [Env.fetched, Env.fetchEvents, h]
  · obtain ⟨w1, h1, e1, f1, _, _⟩ := main.preload_init env
    obtain ⟨w2, ws, cw, _, hmain, hf, hb⟩ := main_run_of _ w1 h1 (by rw [e1]; exact henv)
    refine ⟨ws, w2, hmain, by rw [hb.2.1, f1]; rfl, ?_, (main.framed_live hf).1,
      (main.framed_live hf).2⟩
    intro p hp hfail
    rw [hb.2.1, f1]
    simp only [assetNames, startupURLs, List.zip_cons_cons, List.zip_nil_right, List.mem_cons,
      List.mem_singleton, List.not_mem_nil, or_false] at hp
    rcases hp with rfl | rfl | rfl | rfl
    · have := Env.fetched_of_fails env _ hfail
      simp only [mapGet, this, if_true]
    · have := Env.fetched_of_fails env _ hfail
      simp +decide only [mapGet, this, if_true, if_false]
    · have := Env.fetched_of_fails env _ hfail
      simp +decide only [mapGet, this, if_true, if_false]
    · have := Env.fetched_of_fails env _ hfail
      simp +decide only [mapGet, this, if_true, if_false]

/-- Witness of C6: every request fails. -/
theorem failed_downloads_do_not_stop_main_witness :
    ∃ (ws : List Widgetter) (w' : World),
      main.run (World.init Env.offline) = .ok (gtknew.ScrolledWindow (gtknew.VBox 10 ws), w') ∧
      mapGet w'.files "gopher.png" = none ∧
      ws.length = 6 :=
  (failed_downloads_do_not_stop_main Env.offline (fun d => List.Perm.refl d)).2.2.elim
    fun ws h => h.elim fun w' h =>
      ⟨ws, w', h.1,
        h.2.2.1 ("gopher.png", imageSource ++ "gopher.png") (by decide) (Or.inl ⟨_, rfl⟩),
        h.2.2.2.1⟩

theorem CustomWidget.Loop_run (cw : CustomWidget) (ticks : List Nat) :
    ∀ w : World, (cw.Loop ticks).run w = .ok (cw,
      { w with trace := w.trace ++ ticks.map fun t =>
          .idleAdd (.labelTimeSetLabel ("Last updated at " ++ w.env.stampMilli t ++ ".")) }) := by
  induction ticks with
  | nil => intro w; simp [CustomWidget.Loop, run_pure']; rfl
  | cons t rest ih =>
    intro w
    simp only [CustomWidget.Loop, StateT.run_bind, getEnv_run, ok_bind, emit_run, ih,
      List.map_cons, List.append_assoc, List.singleton_append]

theorem CustomWidget.idle_labelTime (tasks : List IdleTask) :
    ∀ cw : CustomWidget, (CustomWidget.idle tasks cw).labelTime.isNil = cw.labelTime.isNil := by
  induction tasks with
  | nil => intro cw; rfl
  | cons t rest ih =>
    intro cw
    cases t with
    | iconviewIcon i c => exact ih cw
    | labelTimeSetLabel text =>
      simp only [CustomWidget.idle]
      rw [ih]
      simp only [CustomWidget.Loop.func1, Object.isNil_call]

theorem CustomWidget.idle_append (a b : List IdleTask) :
    ∀ cw : CustomWidget,
      CustomWidget.idle (a ++ b) cw = CustomWidget.idle b (CustomWidget.idle a cw) := by
  induction a with
  | nil => intro cw; rfl
  | cons t rest ih =>
    intro cw
    cases t with
    | iconviewIcon i c => exact ih cw
    | labelTimeSetLabel text => exact ih _

theorem idleOf_map_idleAdd (tasks : List IdleTask) :
    idleOf (tasks.map Event.idleAdd) = tasks := by
  induction tasks with
  | nil => rfl
  | cons t rest ih => simp only [List.map_cons, idleOf, List.filterMap_cons]; exact congrArg _ ih

/-- Claim C7: for every byte slice `pixbufLoader` does not fail: it returns
what the loader gives (nil when nothing was decoded) and at most prints the
error of `Close`; in `newIconview` the three text columns of each row are
set at construction, and once the queued closures have run the icon column
of a row is set exactly when `pixbufLoader` gave a pixbuf for the bytes of
that row. -/
theorem pixbuf_failures_leave_the_icon_unset (w : World) :
    (∀ byts : Bytes, ∃ δ : List Event,
      (pixbufLoader byts).run w =
        .ok (w.env.loaderPixbuf byts, { w with trace := w.trace ++ δ }) ∧
      ∀ e ∈ δ, ∃ s, e = .print s) ∧
    ∃ (iv : Object) (model : ListStore) (w1 : World) (δ : List Event),
      newIconview.run w = .ok (gtknew.VBox boxMargin [iv], w1) ∧
      iv.ctorModel = some model ∧
      w1.trace = w.trace ++ δ ∧
      idleOf δ = [.iconviewIcon 0 (mapGet w.files "gotk4.png"),
                  .iconviewIcon 1 (mapGet w.files "gopher-front.png"),
                  .iconviewIcon 2 (mapGet w.files "gopher-side.png"),
                  .iconviewIcon 3 (mapGet w.files "gopher.png")] ∧
      ∀ w2 : World, w2.env = w.env →
        ∃ (final : ListStore) (w3 : World),
          (newIconview.idle (idleOf δ) model).run w2 = .ok (final, w3) ∧
          ∀ (i : Nat) (d : newIconview.Data), newIconview.data[i]? = some d →
            model.Value i ModelCBRef = some (.int d.ref) ∧
            model.Value i ModelCBText = some (.string d.text) ∧
            model.Value i ModelCBTooltip = some (.string d.tooltip) ∧
            model.Value i ModelCBIcon = none ∧
            final.Value i ModelCBRef = some (.int d.ref) ∧
            final.Value i ModelCBText = some (.string d.text) ∧
            final.Value i ModelCBTooltip = some (.string d.tooltip) ∧
            final.Value i ModelCBIcon =
              (w.env.loaderPixbuf (mapGet w.files d.icon)).map GValue.pixbuf ∧
            ((final.Value i ModelCBIcon).isSome ↔
              (w.env.loaderPixbuf (mapGet w.files d.icon)).isSome) := by
  refine ⟨?_, ?_⟩
  · intro byts
    refine ⟨_, pixbufLoader_run byts w, ?_⟩
    intro e he
    cases hc : w.env.loaderClose byts <;> simp [hc] at he
    exact ⟨_, he⟩
  · obtain ⟨iv, hrun, hmodel⟩ := newIconview_run w
    refine ⟨iv, _, _, _, hrun, hmodel, rfl, rfl, ?_⟩
    intro w2 henv
    obtain ⟨final, w3, hidle, hrows⟩ := newIconview.idle_run w2
      (mapGet w.files "gotk4.png") (mapGet w.files "gopher-front.png")
      (mapGet w.files "gopher-side.png") (mapGet w.files "gopher.png")
    rw [henv] at hrows
    refine ⟨final, w3, hidle, ?_⟩
    intro i d hd
    match i, hd with
    | 0, hd =>
      simp only [newIconview.data, List.getElem?_cons_zero, Option.some.injEq] at hd
      subst hd
      simp [ListStore.Value, hrows, ModelCBRef, ModelCBText, ModelCBTooltip, ModelCBIcon]
    | 1, hd =>
      simp only [newIconview.data, List.getElem?_cons_succ, List.getElem?_cons_zero,
        Option.some.injEq] at hd
      subst hd
      simp [ListStore.Value, hrows, ModelCBRef, ModelCBText, ModelCBTooltip, ModelCBIcon]
    | 2, hd =>
      simp only [newIconview.data, List.getElem?_cons_succ, List.getElem?_cons_zero,
        Option.some.injEq] at hd
      subst hd
      simp [ListStore.Value, hrows, ModelCBRef, ModelCBText, ModelCBTooltip, ModelCBIcon]
    | 3, hd =>
      simp only [newIconview.data, List.getElem?_cons_succ, List.getElem?_cons_zero,
        Option.some.injEq] at hd
      subst hd
      simp [ListStore.Value, hrows, ModelCBRef, ModelCBText, ModelCBTooltip, ModelCBIcon]
    | n + 4, hd => simp [newIconview.data] at hd

/-- Witness of C7: nothing was downloaded and nothing decodes, so no icon is
set, the other columns being set. -/
theorem pixbuf_failures_leave_the_icon_unset_witness :
    ∃ (iv : Object) (model : ListStore) (w1 : World) (δ : List Event),
      newIconview.run (World.init Env.offline) = .ok (gtknew.VBox boxMargin [iv], w1) ∧
      ∃ (final : ListStore) (w3 : World),
        (newIconview.idle (idleOf δ) model).run (World.init Env.offline) = .ok (final, w3) ∧
        final.Value 1 ModelCBText = some (.string "with") ∧
        final.Value 1 ModelCBIcon = none :=
  (pixbuf_failures_leave_the_icon_unset (World.init Env.offline)).2.elim
    fun iv h => h.elim fun model h => h.elim fun w1 h => h.elim fun δ h =>
      ⟨iv, model, w1, δ, h.1,
        (h.2.2.2.2 (World.init Env.offline) rfl).elim fun final h3 => h3.elim fun w3 h3 =>
          ⟨final, w3, h3.1,
            (h3.2 1 ⟨1, "with", "tooltip 2", "gopher-front.png"⟩ rfl).2.2.2.2.2.1,
            (h3.2 1 ⟨1, "with", "tooltip 2", "gopher-front.png"⟩ rfl).2.2.2.2.2.2.2.1⟩⟩

/-- Claim C8: starting from the custom widget as `NewCustomWidget` returns it
(status text "Active"), and one toggle being a change of the switch value
followed by the handler `switchToggled`, for every `n` the text of
`labelState` after `2 n` toggles is the text before them; after `2 n + 1`
toggles it is "Inactive". -/
theorem even_toggles_restore_the_status_text (n : Nat) (w0 w1 : World) (cw : CustomWidget)
    (h : NewCustomWidget.run w0 = .ok (cw, w1)) (w : World) :
    Label.text cw.labelState = "Active" ∧
    (∃ (cw' : CustomWidget) (w' : World),
      (CustomWidget.toggles (2 * n) cw).run w = .ok (cw', w') ∧
      Label.text cw'.labelState = Label.text cw.labelState) ∧
    (∃ (cw' : CustomWidget) (w' : World),
      (CustomWidget.toggles (2 * n + 1) cw).run w = .ok (cw', w') ∧
      Label.text cw'.labelState = "Inactive") := by
  have hs := NewCustomWidget_settled w0 w1 cw h
  obtain ⟨cw0, h0, a0, t0, _⟩ := NewCustomWidget_run w0
  rw [h0] at h
  cases h
  refine ⟨t0, ?_, ?_⟩
  · obtain ⟨cw', w', hrun, hs', ha'⟩ := CustomWidget.toggles_settled (2 * n) _ hs w
    refine ⟨cw', w', hrun, ?_⟩
    have : (2 * n) % 2 = 0 := by omega
    rw [hs'.2.2.2, hs.2.2.2, ha']
    simp [this]
  · obtain ⟨cw', w', hrun, hs', ha'⟩ := CustomWidget.toggles_settled (2 * n + 1) _ hs w
    refine ⟨cw', w', hrun, ?_⟩
    have : (2 * n + 1) % 2 = 1 := by omega
    rw [hs'.2.2.2, ha', a0]
    simp [this]

/-- Witness of C8: four toggles of the widget made in the initial world. -/
theorem even_toggles_restore_the_status_text_witness :
    ∃ (cw : CustomWidget) (w1 : World),
      NewCustomWidget.run (World.init Env.offline) = .ok (cw, w1) ∧
      ∃ (cw' : CustomWidget) (w' : World),
        (CustomWidget.toggles (2 * 2) cw).run w1 = .ok (cw', w') ∧
        Label.text cw'.labelState = Label.text cw.labelState :=
  (NewCustomWidget_run (World.init Env.offline)).elim fun cw hcw =>
    ⟨cw, _, hcw.1,
      (even_toggles_restore_the_status_text 2 (World.init Env.offline) _ cw hcw.1 _).2.1⟩

/-- Claim C9, evaluated on the code: with the switch value `b` at call time,
`switchToggled` computes `newValue = !b`, prints it as the value switched
to, and sets the status text to "Inactive" and the icon to "go-down" when
`newValue` is true, to "Active" and "go-up" when it is false: the opposite
of what the claim states. -/
theorem switchToggled_shows_the_opposite_of_newValue (b : Bool) (w : World) :
    ∃ (cw' : CustomWidget) (w' : World),
      (({ Box := gtknew.HBox 10 []
          sw := (new "gtk.NewSwitch" []).call "SetActive" [.bool b]
          img := new "gtk.NewImage" []
          labelState := gtk.NewLabel "Custom Widget"
          labelTime := gtk.NewLabel "" } : CustomWidget).switchToggled).run w = .ok (cw', w') ∧
      Label.text cw'.labelState = (if (!b) = true then "Inactive" else "Active") ∧
      Image.iconName cw'.img = some (if (!b) = true then "go-down" else "go-up") ∧
      w'.trace = w.trace ++ [.print ("custom widget switched to " ++ fmtBool (!b) ++ "\n")] := by
  cases b <;> exact ⟨_, _, rfl, rfl, rfl, rfl⟩

/-- Claim C10: for every sequence of ticks, `Loop` leaves the widget it holds
untouched and hands exactly one closure per tick to the main loop, in tick
order, nothing else happening; the closure of tick `t` sets the time label
to "Last updated at ", the `StampMilli` text of `t` and a final ".", so that
once the main loop has run the queue the label shows the text of the last
tick. -/
theorem Loop_updates_the_label_only_through_Idle (cw : CustomWidget)
    (hl : cw.labelTime.isNil = false) (ticks : List Nat) (w : World) :
    ∃ w' : World,
      (cw.Loop ticks).run w = .ok (cw, w') ∧
      w'.env = w.env ∧ w'.files = w.files ∧
      w'.trace = w.trace ++ ticks.map (fun t => Event.idleAdd
        (.labelTimeSetLabel ("Last updated at " ++ w.env.stampMilli t ++ "."))) ∧
      (idleOf (w'.trace.drop w.trace.length)).length = ticks.length ∧
      (∀ text : String,
        Label.text (CustomWidget.Loop.func1 cw text).labelTime = text ∧
        (CustomWidget.Loop.func1 cw text).labelState = cw.labelState ∧
        (CustomWidget.Loop.func1 cw text).sw = cw.sw ∧
        (CustomWidget.Loop.func1 cw text).img = cw.img) ∧
      ∀ (before : List Nat) (t : Nat), ticks = before ++ [t] →
        Label.text (CustomWidget.idle (idleOf (w'.trace.drop w.trace.length)) cw).labelTime
          = "Last updated at " ++ w.env.stampMilli t ++ "." := by
  have hdrop : ∀ l : List Event, (w.trace ++ l).drop w.trace.length = l := by
    intro l; simp
  have hmap : ∀ l : List Nat,
      idleOf (l.map fun t => Event.idleAdd
        (.labelTimeSetLabel ("Last updated at " ++ w.env.stampMilli t ++ ".")))
      = l.map fun t => IdleTask.labelTimeSetLabel
        ("Last updated at " ++ w.env.stampMilli t ++ ".") := by
    intro l
    have := idleOf_map_idleAdd (l.map fun t => IdleTask.labelTimeSetLabel
        ("Last updated at " ++ w.env.stampMilli t ++ "."))
    simpa [List.map_map] using this
  refine ⟨_, CustomWidget.Loop_run cw ticks w, rfl, rfl, rfl, ?_, ?_, ?_⟩
  · simp only [hdrop, hmap, List.length_map]
  · intro text
    exact ⟨Label.text_SetLabel _ hl _, rfl, rfl, rfl⟩
  · intro before t ht
    simp only [hdrop, hmap]
    subst ht
    rw [List.map_append, CustomWidget.idle_append]
    simp only [List.map_cons, List.map_nil, CustomWidget.idle, CustomWidget.Loop.func1]
    exact Label.text_SetLabel _ (by rw [CustomWidget.idle_labelTime]; exact hl) _

/-- Witness of C10: three ticks on the widget made in the initial world. -/
theorem Loop_updates_the_label_only_through_Idle_witness :
    ∃ (cw : CustomWidget) (w1 w' : World),
      NewCustomWidget.run (World.init Env.offline) = .ok (cw, w1) ∧
      (cw.Loop [7, 8, 9]).run w1 = .ok (cw, w') ∧
      Label.text (CustomWidget.idle (idleOf (w'.trace.drop w1.trace.length)) cw).labelTime
        = "Last updated at 9." :=
  (NewCustomWidget_run (World.init Env.offline)).elim fun cw hcw =>
    (Loop_updates_the_label_only_through_Idle cw
      (by
        have h := hcw.1
        cases h
        rfl) [7, 8, 9] _).elim
      fun w' h => ⟨cw, _, w', hcw.1, h.1, h.2.2.2.2.2.2 [7, 8] 9 rfl⟩

/-! ## Maps, models and the remaining claims -/

theorem ListStore.setCell_length (row : List (Option GValue)) (k : Int) (v : GValue) :
    (ListStore.setCell row k v).length = row.length := by
  unfold ListStore.setCell
  split <;> simp

theorem ListStore.setCell_comm (row : List (Option GValue)) (k1 k2 : Int) (v1 v2 : GValue)
    (h : k1 ≠ k2) :
    ListStore.setCell (ListStore.setCell row k1 v1) k2 v2
      = ListStore.setCell (ListStore.setCell row k2 v2) k1 v1 := by
  unfold ListStore.setCell
  by_cases h1 : 0 ≤ k1 ∧ k1.toNat < row.length <;>
    by_cases h2 : 0 ≤ k2 ∧ k2.toNat < row.length <;>
    simp [h1, h2]
  exact List.set_comm _ _ _ (by omega)

theorem foldl_setCell_perm (d1 d2 : List (Int × GValue)) (h : d1.Perm d2)
    (hnd : (d1.map Prod.fst).Nodup) (row : List (Option GValue)) :
    d1.foldl (fun r kv => ListStore.setCell r kv.1 kv.2) row
      = d2.foldl (fun r kv => ListStore.setCell r kv.1 kv.2) row := by
  refine h.foldl_eq' ?_ row
  intro x hx y hy z
  by_cases hxy : x.1 = y.1
  · have := List.inj_on_of_nodup_map hnd hx hy hxy
    subst this
    rfl
  · exact ListStore.setCell_comm z x.1 y.1 x.2 y.2 hxy

theorem zip_map_fst_snd {α β : Type} (d : List (α × β)) :
    (d.map Prod.fst).zip (d.map Prod.snd) = d := by
  induction d with
  | nil => rfl
  | cons x xs ih => simp [ih]

theorem insertWithValues_rows (model : ListStore) (data : List (Int × GValue))
    (hkeys : (data.map Prod.fst).Nodup) (w : World) (hw : w.env.mapRangeOk) :
    (insertWithValues model data).run w =
      .ok ({ model with rows := model.rows ++ [rowOf model.types.length data] }, w) := by
  rw [insertWithValues_run]
  have hp := hw data
  have hnd : ((w.env.mapRange data).map Prod.fst).Nodup :=
    (hp.map Prod.fst).nodup_iff.mpr hkeys
  simp only [ListStore.InsertWithValues, zip_map_fst_snd, rowOf,
    foldl_setCell_perm _ _ hp hnd]
  simp

theorem insertWithValues_four (model : ListStore) (a b c d : GValue) (w : World)
    (hw : w.env.mapRangeOk) (ht : model.types.length = 4) :
    (insertWithValues model
        [(ModelCBRef, a), (ModelCBText, b), (ModelCBTooltip, c), (ModelCBTooltip + 1, d)]).run w =
      .ok ({ model with rows := model.rows ++ [[some a, some b, some c, some d]] }, w) := by
  rw [insertWithValues_rows _ _ (by simp [ModelCBRef, ModelCBText, ModelCBTooltip]) w hw]
  simp [rowOf, ListStore.setCell, ht, ModelCBRef, ModelCBText, ModelCBTooltip, List.replicate]

theorem newTreeView_fill_run (w : World) (hw : w.env.mapRangeOk) :
    (newTreeView.fill
        [⟨"0", "<b><big>TreeView</big></b>", "text 1", (20, 1)⟩,
         ⟨"1", "with", "text 2", (50, 1)⟩,
         ⟨"2", "texts", "<s>text 3</s>", (80, 1)⟩]
        (ListStore.New [.TypeString, .TypeString, .TypeString, .TypeInt])).run w =
      .ok ({ types := [.TypeString, .TypeString, .TypeString, .TypeInt],
             rows := [
              [some (.string "0"), some (.string "<b><big>TreeView</big></b>"),
                some (.string "text 1"), some (.float64 20 1)],
              [some (.string "1"), some (.string "with"),
                some (.string "text 2"), some (.float64 50 1)],
              [some (.string "2"), some (.string "texts"),
                some (.string "<s>text 3</s>"), some (.float64 80 1)]] }, w) := by
  simp only [newTreeView.fill, StateT.run_bind, ok_bind, run_pure', ListStore.New]
  rw [insertWithValues_four ⟨[.TypeString, .TypeString, .TypeString, .TypeInt], _⟩ _ _ _ _ w hw rfl]
  simp only [ok_bind]
  rw [insertWithValues_four ⟨[.TypeString, .TypeString, .TypeString, .TypeInt], _⟩ _ _ _ _ w hw rfl]
  simp only [ok_bind]
  rw [insertWithValues_four ⟨[.TypeString, .TypeString, .TypeString, .TypeInt], _⟩ _ _ _ _ w hw rfl]
  rfl

theorem newTreeView_run (w : World) (hw : w.env.mapRangeOk) :
    ∃ x : Widgetter,
      newTreeView.run w = .ok (x, w) ∧
      x.ctorModel = some
        { types := [.TypeString, .TypeString, .TypeString, .TypeInt],
          rows := [
            [some (.string "0"), some (.string "<b><big>TreeView</big></b>"),
              some (.string "text 1"), some (.float64 20 1)],
            [some (.string "1"), some (.string "with"),
              some (.string "text 2"), some (.float64 50 1)],
            [some (.string "2"), some (.string "texts"),
              some (.string "<s>text 3</s>"), some (.float64 80 1)]] } ∧
      x.appendedColumns.map Object.columnsUsed = [[1], [2], [3]] := by
  unfold newTreeView
  rw [run_bind_ok _ _ _ _ _ (newTreeView_fill_run w hw)]
  exact ⟨_, rfl, rfl, rfl⟩

theorem newComboBox_model (w : World) (hw : w.env.mapRangeOk) :
    ∃ x : Widgetter,
      newComboBox.run w = .ok (x, w) ∧
      x.ctorModel = some
        { types := [.TypeString, .TypeString],
          rows := [[some (.string "0"), some (.string "ComboBox")],
                   [some (.string "1"), some (.string "with")],
                   [some (.string "2"), some (.string "choices")]] } ∧
      x.columnsUsed = [0, 1, 1] := by
  have hfill : (newComboBox.fill [["0", "ComboBox"], ["1", "with"], ["2", "choices"]]
      (ListStore.New [.TypeString, .TypeString])).run w =
      .ok ({ types := [.TypeString, .TypeString],
             rows := [[some (.string "0"), some (.string "ComboBox")],
                      [some (.string "1"), some (.string "with")],
                      [some (.string "2"), some (.string "choices")]] }, w) := by
    simp only [newComboBox.fill, List.getElem?_cons_zero, List.getElem?_cons_succ,
      StateT.run_bind, run_pure', ok_bind, ListStore.New]
    rw [insertWithValues_pair ⟨[.TypeString, .TypeString], _⟩ _ _ w hw rfl]
    simp only [ok_bind]
    rw [insertWithValues_pair ⟨[.TypeString, .TypeString], _⟩ _ _ w hw rfl]
    simp only [ok_bind]
    rw [insertWithValues_pair ⟨[.TypeString, .TypeString], _⟩ _ _ w hw rfl]
    rfl
  unfold newComboBox
  rw [run_bind_ok _ _ _ _ _ hfill]
  exact ⟨_, rfl, rfl, rfl⟩

theorem newIconview_columns (w : World) :
    ∃ (iv : Object) (w1 : World),
      newIconview.run w = .ok (gtknew.VBox boxMargin [iv], w1) ∧
      iv.ctorModel = some
        { types := [.TypeInt, .TypeString, .TypeString, .GdkPixbuf],
          rows := [
            [some (.int 0), some (.string "<big>Iconview</big>"), some (.string "tooltip 1"), none],
            [some (.int 1), some (.string "with"), some (.string "tooltip 2"), none],
            [some (.int 2), some (.string "icons"), some (.string "tooltip 3"), none],
            [some (.int 3), some (.string "and <b>tooltips</b>"), some (.string "tooltip 4"),
              none]] } ∧
      iv.columnsUsed = [1, 2, 3] := by
  unfold newIconview
  rw [run_bind_ok _ _ _ _ _ (newIconview_fill_run w)]
  exact ⟨_, _, rfl, rfl, rfl⟩

theorem getsOf_append (a b : List Event) : getsOf (a ++ b) = getsOf a ++ getsOf b := by
  simp [getsOf, List.filterMap_append]

theorem getsOf_cons_write (k : String) (t : List Event) :
    getsOf (.filesWrite k :: t) = getsOf t := rfl

theorem getsOf_fetchEvents (env : Env) (url : String) : getsOf (env.fetchEvents url) = [url] := by
  unfold Env.fetchEvents
  cases h : env.httpGet url with
  | getError e => rfl
  | response st b re => cases re <;> rfl

theorem getsOf_byConstructor (δ : List Event) (h : ∀ e ∈ δ, e.byConstructor = true) :
    getsOf δ = [] := by
  induction δ with
  | nil => rfl
  | cons e rest ih =>
    have he := h e (by simp)
    have hr := ih fun e' he' => h e' (by simp [he'])
    cases e <;> simp_all [getsOf, Event.byConstructor]

theorem main.preload_gets (env : Env) :
    ∃ w1 : World,
      main.preload.run (World.init env) = .ok ((), w1) ∧ w1.env = env ∧
      getsOf w1.trace = startupURLs := by
  refine ⟨_, main.preload_run (World.init env), rfl, ?_⟩
  simp only [World.init, List.nil_append, getsOf_append, getsOf_fetchEvents, getsOf_cons_write]
  rfl

theorem newGrid.loop_done (fuel : Nat) (i : Nat) (w : Object) (h : 6 ≤ i) :
    newGrid.loop fuel i w = w := by
  cases fuel with
  | zero => rfl
  | succ n => simp only [newGrid.loop, if_neg (show ¬ i < 6 by omega)]

/-- Claim C11: `testError(errs)` prints the diagnostic and panics with
"builder errors" exactly when `errs.IsError()` is true, and otherwise
returns with nothing printed; in the click handlers of `newCustomDialog` and
`newShortcutsWindow` it runs before `Connect` and `Show`, so that with a
malformed resource the handler stops after the diagnostic and no window is
shown, and with a well-formed one the window is connected and shown. -/
theorem testError_panics_iff_IsError (errs : Errors) (load : String → Builder) (w : World) :
    ((testError errs).run.run w =
      if errs.IsError = true then
        (.error "builder errors",
          { w with trace := w.trace ++ [.print (errs.Error ++ "\n")] })
      else (.ok (), w)) ∧
    (((testError errs).run.run w).1 = .error "builder errors" ↔ errs.IsError = true) ∧
    ((load newCustomDialog.ui).Errors.IsError = true →
      (newCustomDialog.func1 load).run.run w =
        (.error "builder errors",
          { w with trace := w.trace ++
            [.print ((load newCustomDialog.ui).Errors.Error ++ "\n")] })) ∧
    ((load newCustomDialog.ui).Errors.IsError = false →
      (newCustomDialog.func1 load).run.run w =
        (.ok (),
          { w with trace := w.trace ++
            [.appCall "dialog1" "Connect" ["response"], .appCall "dialog1" "Show" []] })) ∧
    ((load "shortcuts-clocks.ui").Errors.IsError = true →
      (newShortcutsWindow.func1 load).run.run w =
        (.error "builder errors",
          { w with trace := w.trace ++
            [.print ((load "shortcuts-clocks.ui").Errors.Error ++ "\n")] })) ∧
    ((load "shortcuts-clocks.ui").Errors.IsError = false →
      (newShortcutsWindow.func1 load).run.run w =
        (.ok (), { w with trace := w.trace ++ [.appCall "shortcuts-clocks" "Show" []] })) := by
  refine ⟨?_, ?_, ?_, ?_, ?_, ?_⟩
  · unfold testError
    cases errs.IsError <;> rfl
  · unfold testError
    cases errs.IsError
    · simp
    · simp
      rfl
  · intro h
    unfold newCustomDialog.func1 testError
    simp only [h]
    rfl
  · intro h
    unfold newCustomDialog.func1 testError
    simp only [h]
    refine Eq.trans (rfl : _ = ((Except.ok (), ({ w with trace := (w.trace ++
      [.appCall "dialog1" "Connect" ["response"]]) ++ [.appCall "dialog1" "Show" []] } : World)) :
        Except String Unit × World)) ?_
    simp
  · intro h
    unfold newShortcutsWindow.func1 testError
    simp only [h]
    rfl
  · intro h
    unfold newShortcutsWindow.func1 testError
    simp only [h]
    rfl

/-- Witness of C11: a builder whose load failed with the message "bad". -/
theorem testError_panics_iff_IsError_witness :
    (newCustomDialog.func1
        (fun _ => { Errors := ⟨true, "bad"⟩, Dialog := fun _ => .nil,
                    ShortcutsWindow := fun _ => .nil })).run.run (World.init Env.offline) =
      (.error "builder errors",
        { World.init Env.offline with trace := [.print "bad\n"] }) :=
  (testError_panics_iff_IsError ⟨true, "bad"⟩
    (fun _ => { Errors := ⟨true, "bad"⟩, Dialog := fun _ => .nil,
                ShortcutsWindow := fun _ => .nil }) (World.init Env.offline)).2.2.1 rfl

/-- Claim C12: every catalog entry whose name is one of MenuBar, EmojiChooser,
Menu, PopOver, MessageDialog, PrintDialog has a maker that, in every world,
does not fail and returns the placeholder, a label whose text is "TODO";
each of the six names is in the catalog. -/
theorem not_implemented_entries_return_the_placeholder (item : GroupItem)
    (hitem : item ∈ catalog) (hname : item.Name ∈ notImplemented) (w : World) :
    item.Make.run w = .ok (gtk.NewLabel "TODO", w) ∧
    Label.text (gtk.NewLabel "TODO") = "TODO" ∧
    (gtk.NewLabel "TODO").isNil = false ∧
    ∀ name ∈ notImplemented, name ∈ catalog.map GroupItem.Name := by
  refine ⟨?_, rfl, rfl, by decide⟩
  simp only [catalog, listDisplays, listButtons, listEntries, listContainers, listWindows,
    List.mem_append, List.mem_cons, List.mem_singleton, List.not_mem_nil, or_false] at hitem
  simp only [notImplemented, List.mem_cons, List.mem_singleton, List.not_mem_nil,
    or_false] at hname
  rcases hitem with (((h | h) | h) | h) | h
  all_goals
    repeat' (rcases h with h | h)
  all_goals
    try subst h
    first
      | (exfalso; revert hname; decide)
      | rfl

/-- Witness of C12: the entry "PopOver" of the containers. -/
theorem not_implemented_entries_return_the_placeholder_witness :
    newPopOver.run (World.init Env.offline) = .ok (gtk.NewLabel "TODO", World.init Env.offline) :=
  (not_implemented_entries_return_the_placeholder ⟨"PopOver", newPopOver⟩
    (by simp [catalog, listContainers]) (by decide) (World.init Env.offline)).1

/-- Claim C13: `main` issues exactly four GET requests (so between three and
four), one for each of its four fixed, distinct URLs, in order, all of them
in the preload phase before any widget is made; the rest of `main`, which
makes all the widgets, issues none; and one call of `downloadFile` issues
exactly one GET whether it succeeds or fails. -/
theorem main_requests_each_startup_URL_once (env : Env) (henv : env.mapRangeOk) :
    (∃ (w1 w2 : World) (ws : List Widgetter) (δ : List Event),
      main.preload.run (World.init env) = .ok ((), w1) ∧
      getsOf w1.trace = startupURLs ∧
      main.widgets.run w1 = .ok (ws, w2) ∧
      main.run (World.init env) = .ok (gtknew.ScrolledWindow (gtknew.VBox 10 ws), w2) ∧
      w2.trace = w1.trace ++ δ ∧ getsOf δ = [] ∧
      getsOf w2.trace = startupURLs ∧
      3 ≤ (getsOf w2.trace).length ∧ (getsOf w2.trace).length ≤ 4) ∧
    startupURLs.length = 4 ∧ startupURLs.Nodup ∧
    ∀ (url : String) (w : World), ∃ (b : Bytes) (w' : World) (δ : List Event),
      (downloadFile url).run w = .ok (b, w') ∧ w'.trace = w.trace ++ δ ∧ getsOf δ = [url] := by
  refine ⟨?_, rfl, by decide, ?_⟩
  · obtain ⟨w1, h1, e1, hg⟩ := main.preload_gets env
    obtain ⟨w2, ws, cw, hws, hmain, _, hb⟩ := main_run_of _ w1 h1 (by rw [e1]; exact henv)
    obtain ⟨_, _, δ, hδ, hall⟩ := hb
    have hgδ := getsOf_byConstructor δ hall
    have hg2 : getsOf w2.trace = startupURLs := by
      rw [hδ, getsOf_append, hgδ, hg, List.append_nil]
    refine ⟨w1, w2, ws, δ, h1, hg, hws, hmain, hδ, hgδ, hg2, ?_, ?_⟩
    · rw [hg2]; decide
    · rw [hg2]; decide
  · intro url w
    exact ⟨_, _, _, downloadFile_run url w, rfl, getsOf_fetchEvents _ _⟩

/-- Witness of C13: `main` with the network down still asks for every URL
once. -/
theorem main_requests_each_startup_URL_once_witness :
    ∃ (r : Widgetter) (w2 : World),
      main.run (World.init Env.offline) = .ok (r, w2) ∧ getsOf w2.trace = startupURLs :=
  (main_requests_each_startup_URL_once Env.offline (fun d => List.Perm.refl d)).1.elim
    fun _ h => h.elim fun w2 h => h.elim fun _ h => h.elim fun _ h =>
      ⟨_, w2, h.2.2.2.1, h.2.2.2.2.2.2.1⟩

/-- Claim C14: the constants `ModelCBRef`, `ModelCBText`, `ModelCBTooltip`,
`ModelCBIcon` are 0, 1, 2, 3; the models of `newComboBox`, `newTreeView` and
`newIconview` declare 2, 4 and 4 columns; every value stored is found in its
column of the model afterwards (so no column index given to the store is
out of range), and every column given to a view, a renderer attribute or a
tree view column is smaller than the number of columns of the model. -/
theorem model_columns_are_in_range (w : World) (hw : w.env.mapRangeOk) :
    (ModelCBRef = 0 ∧ ModelCBText = 1 ∧ ModelCBTooltip = 2 ∧ ModelCBIcon = 3 ∧
      ModelCBTooltip + 1 = 3) ∧
    (∃ (x : Widgetter) (model : ListStore),
      newComboBox.run w = .ok (x, w) ∧ x.ctorModel = some model ∧
      model.types.length = 2 ∧
      (∀ i : Nat, i < model.rows.length →
        (model.Value i ModelCBRef).isSome ∧ (model.Value i ModelCBText).isSome) ∧
      model.rows.length = 3 ∧
      x.columnsUsed = [ModelCBRef, ModelCBText, ModelCBText] ∧
      ∀ k ∈ x.columnsUsed, 0 ≤ k ∧ k < model.types.length) ∧
    (∃ (x : Widgetter) (model : ListStore),
      newTreeView.run w = .ok (x, w) ∧ x.ctorModel = some model ∧
      model.types.length = 4 ∧
      (∀ i : Nat, i < model.rows.length →
        (model.Value i ModelCBRef).isSome ∧ (model.Value i ModelCBText).isSome ∧
        (model.Value i ModelCBTooltip).isSome ∧ (model.Value i (ModelCBTooltip + 1)).isSome) ∧
      model.rows.length = 3 ∧
      x.appendedColumns.map Object.columnsUsed
        = [[ModelCBText], [ModelCBTooltip], [ModelCBTooltip + 1]] ∧
      ∀ c ∈ x.appendedColumns, ∀ k ∈ c.columnsUsed, 0 ≤ k ∧ k < model.types.length) ∧
    (∃ (iv : Object) (model : ListStore) (w1 : World),
      newIconview.run w = .ok (gtknew.VBox boxMargin [iv], w1) ∧ iv.ctorModel = some model ∧
      model.types.length = 4 ∧
      (∀ i : Nat, i < model.rows.length →
        (model.Value i ModelCBRef).isSome ∧ (model.Value i ModelCBText).isSome ∧
        (model.Value i ModelCBTooltip).isSome) ∧
      model.rows.length = 4 ∧
      (∀ (p : Pixbuf) (i : Nat), i < model.rows.length →
        (model.SetValue i ModelCBIcon (.pixbuf p)).Value i ModelCBIcon = some (.pixbuf p)) ∧
      iv.columnsUsed = [ModelCBText, ModelCBTooltip, ModelCBIcon] ∧
      ∀ k ∈ iv.columnsUsed, 0 ≤ k ∧ k < model.types.length) := by
  refine ⟨⟨rfl, rfl, rfl, rfl, rfl⟩, ?_, ?_, ?_⟩
  · obtain ⟨x, hrun, hmodel, hcols⟩ := newComboBox_model w hw
    refine ⟨x, _, hrun, hmodel, rfl, ?_, rfl, hcols, ?_⟩
    · intro i hi
      have hi3 : i < 3 := hi
      interval_cases i <;> exact ⟨rfl, rfl⟩
    · rw [hcols]; decide
  · obtain ⟨x, hrun, hmodel, hcols⟩ := newTreeView_run w hw
    refine ⟨x, _, hrun, hmodel, rfl, ?_, rfl, hcols, ?_⟩
    · intro i hi
      have hi3 : i < 3 := hi
      interval_cases i <;> exact ⟨rfl, rfl, rfl, rfl⟩
    · intro c hc k hk
      have hmem : c.columnsUsed ∈ x.appendedColumns.map Object.columnsUsed :=
        List.mem_map_of_mem _ hc
      rw [hcols] at hmem
      simp only [List.mem_cons, List.mem_singleton, List.not_mem_nil, or_false] at hmem
      rcases hmem with h | h | h <;> rw [h] at hk <;>
        simp only [List.mem_singleton] at hk <;> subst hk <;> decide
  · obtain ⟨iv, w1, hrun, hmodel, hcols⟩ := newIconview_columns w
    refine ⟨iv, _, _, hrun, hmodel, rfl, ?_, rfl, ?_, hcols, ?_⟩
    · intro i hi
      have hi4 : i < 4 := hi
      interval_cases i <;> exact ⟨rfl, rfl, rfl⟩
    · intro p i hi
      have hi4 : i < 4 := hi
      interval_cases i <;> rfl
    · rw [hcols]; decide

/-- Witness of C14: the three makers in the initial world, maps visited in the
order written. -/
theorem model_columns_are_in_range_witness :
    ∃ (x : Widgetter) (model : ListStore),
      newTreeView.run (World.init Env.offline) = .ok (x, World.init Env.offline) ∧
      x.ctorModel = some model ∧ model.types.length = 4 ∧
      x.appendedColumns.map Object.columnsUsed = [[1], [2], [3]] :=
  (model_columns_are_in_range (World.init Env.offline)
    (fun d => List.Perm.refl d)).2.2.1.elim
    fun x h => h.elim fun model h => ⟨x, model, h.1, h.2.1, h.2.2.1, h.2.2.2.2.2.1⟩

/-- Claim C15, evaluated on the code: in the model `newTreeView` fills, declared
with the column types string, string, string, int, every row holds Go
strings in columns 0, 1 and 2, as declared, but in column 3 it holds the
`float64` of the field `value` (20, 50, 80), which is not a Go `int`: the
value stored does not have the type declared for the column. -/
theorem newTreeView_stores_a_float64_in_the_int_column :
    ∃ (x : Widgetter) (model : ListStore),
      newTreeView.run (World.init Env.offline) = .ok (x, World.init Env.offline) ∧
      x.ctorModel = some model ∧
      model.types = [.TypeString, .TypeString, .TypeString, .TypeInt] ∧
      model.rows.map (fun row => row.map fun cell => cell.map fun v =>
        (match v with
         | .float64 _ _ => "float64"
         | .string _ => "string"
         | .int _ => "int"
         | .pixbuf _ => "pixbuf")) =
        [[some "string", some "string", some "string", some "float64"],
         [some "string", some "string", some "string", some "float64"],
         [some "string", some "string", some "string", some "float64"]] ∧
      model.rows.map (fun row => (row.zip model.types).map fun p => p.1.map fun v =>
        v.hasType p.2) =
        [[some true, some true, some true, some false],
         [some true, some true, some true, some false],
         [some true, some true, some true, some false]] ∧
      model.Value 0 (ModelCBTooltip + 1) = some (.float64 20 1) :=
  (newTreeView_run (World.init Env.offline) (fun d => List.Perm.refl d)).elim
    fun x h => ⟨x, _, h.1, h.2.1, rfl, rfl, rfl, rfl⟩

/-- Claim C16: for every map `data` (its keys distinct) and every order in
which the map is visited, `insertWithValues` passes to the model two slices
`keys` and `values` of length `len(data)`, the keys being the keys of the
map, each once, and `values[i]` the value of `keys[i]`; the pairs passed are
the entries of the map whatever the order; the row is inserted at position
-1, which appends it, and the row does not depend on the order. -/
theorem insertWithValues_passes_each_entry_once (model : ListStore)
    (data : List (Int × GValue)) (hkeys : (data.map Prod.fst).Nodup)
    (w : World) (hw : w.env.mapRangeOk) :
    ∃ (keys : List Int) (values : List GValue),
      insertWithValues.loop (w.env.mapRange data) [] [] = (keys, values) ∧
      (insertWithValues model data).run w =
        .ok (model.InsertWithValues (-1) keys values, w) ∧
      keys.length = data.length ∧ values.length = data.length ∧
      keys.Perm (data.map Prod.fst) ∧ keys.Nodup ∧
      (∀ (i : Nat) (k : Int), keys[i]? = some k →
        ∃ v : GValue, values[i]? = some v ∧ (k, v) ∈ data) ∧
      (keys.zip values).Perm data ∧
      (model.InsertWithValues (-1) keys values).types = model.types ∧
      (model.InsertWithValues (-1) keys values).rows
        = model.rows ++ [rowOf model.types.length data] := by
  have hp := hw data
  have hpk : ((w.env.mapRange data).map Prod.fst).Perm (data.map Prod.fst) := hp.map Prod.fst
  have hrun := insertWithValues_run model data w
  have hrows := insertWithValues_rows model data hkeys w hw
  rw [hrun] at hrows
  refine ⟨(w.env.mapRange data).map Prod.fst, (w.env.mapRange data).map Prod.snd, ?_, hrun,
    ?_, ?_, hpk, hpk.nodup_iff.mpr hkeys, ?_, ?_, ?_, ?_⟩
  · simp [insertWithValues.loop_eq]
  · simpa using hp.length_eq
  · simpa using hp.length_eq
  · intro i k hk
    rw [List.getElem?_map] at hk
    cases hkv : (w.env.mapRange data)[i]? with
    | none => rw [hkv] at hk; simp at hk
    | some kv =>
      rw [hkv] at hk
      simp only [Option.map_some', Option.some.injEq] at hk
      refine ⟨kv.2, by rw [List.getElem?_map, hkv]; rfl, ?_⟩
      have hmem : kv ∈ w.env.mapRange data := List.getElem?_mem hkv
      rw [← hk]
      exact hp.subset hmem
  · rw [zip_map_fst_snd]; exact hp
  · simp [ListStore.InsertWithValues]
  · have h := congrArg (fun r => match r with
      | Except.ok (m, _) => ListStore.rows m
      | Except.error _ => []) hrows
    exact h

/-- Witness of C16: a map of two entries written with the larger key first. -/
theorem insertWithValues_passes_each_entry_once_witness :
    ∃ (keys : List Int) (values : List GValue),
      (insertWithValues (ListStore.New [.TypeString, .TypeString])
          [(1, .string "b"), (0, .string "a")]).run (World.init Env.offline) =
        .ok ((ListStore.New [.TypeString, .TypeString]).InsertWithValues (-1) keys values,
          World.init Env.offline) ∧
      ((ListStore.New [.TypeString, .TypeString]).InsertWithValues (-1) keys values).rows
        = [[some (.string "a"), some (.string "b")]] :=
  (insertWithValues_passes_each_entry_once (ListStore.New [.TypeString, .TypeString])
    [(1, .string "b"), (0, .string "a")] (by decide) (World.init Env.offline)
    (fun d => List.Perm.refl d)).elim
    fun keys h => h.elim fun values h => ⟨keys, values, h.2.1, h.2.2.2.2.2.2.2.2.2⟩

/-- Claim C17: when the GET returns a response and the body is read without
error, `downloadFile` returns exactly the bytes of the body, a slice that is
not nil, whatever the status code of the response, which has no part in
the result; the result is nil exactly when the GET or the read returned an
error. -/
theorem downloadFile_returns_the_body_whatever_the_status (url : String) (w : World) :
    (∀ (st : Nat) (b : List Nat), w.env.httpGet url = .response st b none →
      (downloadFile url).run w = .ok (some b,
        { w with trace := w.trace ++ [.httpGet url, .bodyClose url] })) ∧
    ∃ (r : Bytes) (w' : World),
      (downloadFile url).run w = .ok (r, w') ∧ (r = none ↔ w.env.fails url) := by
  refine ⟨?_, _, _, downloadFile_run url w, ?_⟩
  · intro st b h
    rw [downloadFile_run]
    simp only [Env.fetched, Env.fetchEvents, h]
  · unfold Env.fetched Env.fails
    cases h : w.env.httpGet url with
    | getError e => simp
    | response st b re => cases re <;> simp

/-- Witness of C17: a reply with status 404 and a body of three bytes is
stored as the asset. -/
theorem downloadFile_returns_the_body_whatever_the_status_witness :
    (downloadFile "u").run
        (World.init { Env.offline with httpGet := fun _ => .response 404 [60, 33, 62] none }) =
      .ok (some [60, 33, 62],
        { World.init { Env.offline with httpGet := fun _ => .response 404 [60, 33, 62] none }
          with trace := [.httpGet "u", .bodyClose "u"] }) :=
  (downloadFile_returns_the_body_whatever_the_status "u"
    (World.init { Env.offline with httpGet := fun _ => .response 404 [60, 33, 62] none })).1
    404 [60, 33, 62] rfl

/-- Claim C18: `newGrid` attaches exactly six frames, labelled "1" to "6", the
frame labelled `k + 1` at column `k mod 3` and row `k div 3` with width and
height 1; the six positions are pairwise distinct and are the cells of the
rectangle of 3 columns and 2 rows in row-major order; the loop stops after
six rounds however much fuel is left. -/
theorem newGrid_attaches_six_frames_row_major (w : World) :
    ∃ grid : Widgetter,
      newGrid.run w = .ok (grid, w) ∧
      Grid.cells grid =
        [(gtknew.Frame "1" [], 0, 0, 1, 1), (gtknew.Frame "2" [], 1, 0, 1, 1),
         (gtknew.Frame "3" [], 2, 0, 1, 1), (gtknew.Frame "4" [], 0, 1, 1, 1),
         (gtknew.Frame "5" [], 1, 1, 1, 1), (gtknew.Frame "6" [], 2, 1, 1, 1)] ∧
      (Grid.cells grid).length = 6 ∧
      Grid.cells grid = (List.range 6).map (fun k =>
        (gtknew.Frame (Itoa (k + 1)) [], Int.ofNat (k % 3), Int.ofNat (k / 3), 1, 1)) ∧
      ((Grid.cells grid).map fun c => (c.2.1, c.2.2.1)).Nodup ∧
      ((Grid.cells grid).map fun c => (c.2.1, c.2.2.1)) =
        [(0, 0), (1, 0), (2, 0), (0, 1), (1, 1), (2, 1)] ∧
      ∀ fuel : Nat, newGrid.loop (6 + fuel) 0 (new "gtk.NewGrid" []) = grid := by
  refine ⟨newGrid.loop 7 0 (new "gtk.NewGrid" []), rfl, rfl, rfl, rfl, ?_, rfl, ?_⟩
  · decide
  · intro fuel
    have h6 : 6 + fuel = fuel + 1 + 1 + 1 + 1 + 1 + 1 := by omega
    rw [h6]
    simp only [newGrid.loop, Nat.lt_irrefl, if_true, if_false, Nat.reduceAdd, Nat.reduceLT,
      newGrid.loop_done _ 6 _ (Nat.le_refl 6)]

end Gallery
